import Mathlib

/-!
Verification development for the deposit-to-balance reconciliation engine of
the Ofcourse-DaytoCourse backend.

The Python source is shallowly embedded: each SQLAlchemy table becomes a Lean
structure, the database becomes a record of lists of rows, and each CRUD /
controller function becomes a pure Lean function on that record.  Python
exceptions (ValueError and friends) are modelled with Except: an operation
that raises before committing returns an error and no new state, mirroring
the fact that uncommitted session changes are discarded.  Wall-clock time
(datetime.now) is passed explicitly as an integer parameter, in minutes.
Python ints are modelled as Int (they are unbounded); primary keys are Nat.
-/

namespace DaytoCourse

/-- Row of the user_balances table (models/payment.py, class UserBalance). -/
structure UserBalance where
  user_id : String
  total_balance : Int
  refundable_balance : Int
  non_refundable_balance : Int
  deriving Repr, DecidableEq

namespace UserBalance

/-- UserBalance.has_sufficient_balance (models/payment.py line 127). -/
def has_sufficient_balance (b : UserBalance) (amount : Int) : Bool :=
  decide (amount ≤ b.total_balance)

/-- UserBalance.add_balance (models/payment.py line 131): increases the chosen
sub-balance and the total by the given amount. -/
def add_balance (b : UserBalance) (amount : Int) (is_refundable : Bool) : UserBalance :=
  let b1 :=
    if is_refundable then
      { b with refundable_balance := b.refundable_balance + amount }
    else
      { b with non_refundable_balance := b.non_refundable_balance + amount }
  { b1 with total_balance := b1.total_balance + amount }

/-- UserBalance.deduct_balance (models/payment.py line 139): raises (none) when
the total is insufficient, otherwise consumes the non-refundable balance first
and the refundable balance only for the remainder. -/
def deduct_balance (b : UserBalance) (amount : Int) : Option UserBalance :=
  if !(b.has_sufficient_balance amount) then
    none
  else
    let remaining := amount
    let step1 :=
      if b.non_refundable_balance > 0 then
        let deduct_from_non_refundable := min remaining b.non_refundable_balance
        ({ b with non_refundable_balance :=
            b.non_refundable_balance - deduct_from_non_refundable },
          remaining - deduct_from_non_refundable)
      else
        (b, remaining)
    let b1 := step1.1
    let remaining1 := step1.2
    let b2 :=
      if remaining1 > 0 then
        { b1 with refundable_balance := b1.refundable_balance - remaining1 }
      else
        b1
    some { b2 with total_balance := b2.total_balance - amount }

end UserBalance

/-- The balance invariant from the chk_balance_consistency / positivity CHECK
constraints on user_balances (models/payment.py lines 113-116). -/
def BalInv (b : UserBalance) : Prop :=
  b.total_balance = b.refundable_balance + b.non_refundable_balance ∧
  0 ≤ b.total_balance ∧ 0 ≤ b.refundable_balance ∧ 0 ≤ b.non_refundable_balance

instance (b : UserBalance) : Decidable (BalInv b) := by
  unfold BalInv; infer_instance

/-- Row of the charge_histories table (models/payment.py, class ChargeHistory). -/
structure ChargeHistory where
  charge_history_id : Nat
  user_id : String
  deposit_request_id : Option Nat
  amount : Int
  refunded_amount : Int
  is_refundable : Bool
  source_type : String
  refund_status : String
  deriving Repr, DecidableEq

/-- Row of the usage_histories table (models/payment.py, class UsageHistory). -/
structure UsageHistory where
  usage_history_id : Nat
  user_id : String
  amount : Int
  service_type : String
  service_id : Option String
  deriving Repr, DecidableEq

/-- Row of the refund_requests table (models/payment.py, class RefundRequest). -/
structure RefundRequest where
  refund_request_id : Nat
  user_id : String
  bank_name : String
  account_number : String
  account_holder : String
  refund_amount : Int
  contact : String
  reason : String
  status : String
  processed_at : Option Int
  admin_memo : Option String
  deriving Repr, DecidableEq

/-- Row of the deposit_requests table (models/deposit.py, class DepositRequest). -/
structure DepositRequest where
  deposit_request_id : Nat
  user_id : String
  deposit_name : String
  amount : Option Int
  bank_name : String
  account_number : String
  status : String
  created_at : Int
  expires_at : Int
  matched_at : Option Int
  deriving Repr, DecidableEq

/-- Row of the sms_logs table (models/sms.py, class SmsLog). -/
structure SmsLog where
  sms_log_id : Nat
  raw_message : String
  parsed_amount : Option Int
  parsed_name : Option String
  parsed_time : Option Int
  processing_status : String
  matched_deposit_id : Option Nat
  error_message : Option String
  deriving Repr, DecidableEq

/-- Row of the unmatched_deposits table (models/sms.py, class UnmatchedDeposit). -/
structure UnmatchedDeposit where
  unmatched_deposit_id : Nat
  raw_message : String
  parsed_amount : Option Int
  parsed_name : Option String
  parsed_time : Option Int
  status : String
  matched_user_id : Option String
  matched_at : Option Int
  deriving Repr, DecidableEq

/-- Row of the balance_change_logs table (models/sms.py, class BalanceChangeLog). -/
structure BalanceChangeLog where
  user_id : String
  change_type : String
  amount : Int
  balance_before : Int
  balance_after : Int
  reference_table : Option String
  reference_id : Option Nat
  deriving Repr, DecidableEq

/-- Row of the rate_limit_logs table (models/rate_limit.py, class RateLimitLog). -/
structure RateLimitLog where
  rate_limit_log_id : Nat
  user_id : String
  action_type : String
  created_at : Int
  deriving Repr, DecidableEq

/-- The persistent store: one list of rows per table of the core, plus the list
of existing users as (user_id, nickname) pairs and a primary-key counter. -/
structure DB where
  users : List (String × String)
  balances : List UserBalance
  deposits : List DepositRequest
  smsLogs : List SmsLog
  unmatched : List UnmatchedDeposit
  charges : List ChargeHistory
  usages : List UsageHistory
  refunds : List RefundRequest
  rateLogs : List RateLimitLog
  changeLogs : List BalanceChangeLog
  nextId : Nat
  deriving Repr, DecidableEq

/-- SQLAlchemy scalar_one_or_none: some none for an empty result set, the
single row when there is exactly one, and none (MultipleResultsFound raised)
when several rows match. -/
def scalarOneOrNone {α : Type} : List α → Option (Option α)
  | [] => some none
  | [x] => some (some x)
  | _ :: _ :: _ => none

/-- Replace, in a list of rows, every row satisfying p by the row b (the shape
of both an ORM in-place mutation of a row found by p and an UPDATE ... WHERE p). -/
def updateWhere {α : Type} (p : α → Bool) (b : α) (l : List α) : List α :=
  l.map (fun x => if p x then b else x)

/-- crud_payment.get_user_balance (crud/crud_payment.py line 58). -/
def get_user_balance (db : DB) (user_id : String) : Option UserBalance :=
  db.balances.find? (fun b => b.user_id == user_id)

/-- Write back a mutated balance row for the given user. -/
def setBalance (db : DB) (user_id : String) (b : UserBalance) : DB :=
  { db with balances := updateWhere (fun x => x.user_id == user_id) b db.balances }

/-- crud_payment.get_or_create_user_balance (crud/crud_payment.py line 65):
returns the existing row, or creates a zeroed one after checking that the user
exists (raising otherwise). -/
def get_or_create_user_balance (db : DB) (user_id : String) :
    Except String (UserBalance × DB) :=
  match get_user_balance db user_id with
  | some b => .ok (b, db)
  | none =>
    if db.users.any (fun u => u.1 == user_id) then
      let b : UserBalance :=
        { user_id := user_id, total_balance := 0, refundable_balance := 0,
          non_refundable_balance := 0 }
      .ok (b, { db with balances := db.balances ++ [b] })
    else
      .error "user does not exist"

/-- crud_payment.update_user_balance (crud/crud_payment.py line 84): credit
when is_add, debit (non-refundable first) otherwise. -/
def update_user_balance (db : DB) (user_id : String) (amount : Int)
    (is_add : Bool) (is_refundable : Bool) : Except String (UserBalance × DB) :=
  match get_or_create_user_balance db user_id with
  | .error e => .error e
  | .ok (b, db) =>
    if is_add then
      let b2 := b.add_balance amount is_refundable
      .ok (b2, setBalance db user_id b2)
    else
      match b.deduct_balance amount with
      | none => .error "insufficient balance"
      | some b2 => .ok (b2, setBalance db user_id b2)

/-- schemas/payment_schema.py BalanceDeductRequest (validated: amount > 0). -/
structure BalanceDeductRequest where
  amount : Int
  service_type : String
  service_id : Option String
  deriving Repr, DecidableEq

/-- crud_payment.deduct_balance (crud/crud_payment.py line 117): checks the
balance, deducts it and appends a usage-history row in a single commit. -/
def deduct_balance (db : DB) (user_id : String) (req : BalanceDeductRequest) :
    Except String (UserBalance × UsageHistory × DB) :=
  match get_user_balance db user_id with
  | none => .error "insufficient balance"
  | some b =>
    if !(b.has_sufficient_balance req.amount) then
      .error "insufficient balance"
    else
      match b.deduct_balance req.amount with
      | none => .error "insufficient balance"
      | some b2 =>
        let db2 := setBalance db user_id b2
        let usage : UsageHistory :=
          { usage_history_id := db2.nextId, user_id := user_id,
            amount := req.amount, service_type := req.service_type,
            service_id := req.service_id }
        .ok (b2, usage,
          { db2 with usages := db2.usages ++ [usage], nextId := db2.nextId + 1 })

/-- schemas/payment_schema.py ChargeHistoryCreate; the pydantic validator
rejects amount ≤ 0 before any row is written. -/
structure ChargeHistoryCreate where
  user_id : String
  deposit_request_id : Option Nat
  amount : Int
  is_refundable : Bool := true
  source_type : String := "deposit"
  deriving Repr, DecidableEq

/-- crud_payment.create_charge_history (crud/crud_payment.py line 17), with the
ChargeHistoryCreate validator (amount > 0) applied at construction time. -/
def create_charge_history (db : DB) (c : ChargeHistoryCreate) :
    Except String (ChargeHistory × DB) :=
  if c.amount ≤ 0 then
    .error "charge amount must be positive"
  else
    let row : ChargeHistory :=
      { charge_history_id := db.nextId, user_id := c.user_id,
        deposit_request_id := c.deposit_request_id, amount := c.amount,
        refunded_amount := 0, is_refundable := c.is_refundable,
        source_type := c.source_type, refund_status := "available" }
    .ok (row, { db with charges := db.charges ++ [row], nextId := db.nextId + 1 })

/-- crud_sms.create_balance_change_log (crud/crud_sms.py line 84). -/
def create_balance_change_log (db : DB) (user_id : String) (change_type : String)
    (amount balance_before balance_after : Int)
    (reference_table : Option String) (reference_id : Option Nat) : DB :=
  let row : BalanceChangeLog :=
    { user_id := user_id, change_type := change_type, amount := amount,
      balance_before := balance_before, balance_after := balance_after,
      reference_table := reference_table, reference_id := reference_id }
  { db with changeLogs := db.changeLogs ++ [row] }

/-- crud_refund_new.has_pending_refund_request (crud/crud_refund_new.py line 55). -/
def has_pending_refund_request (db : DB) (user_id : String) : Bool :=
  (db.refunds.find? (fun r => r.user_id == user_id && r.status == "pending")).isSome

/-- crud_refund_new.get_user_refundable_amount (crud/crud_refund_new.py line
20), reduced to the two fields the callers consume: the refundable amount and
the can_request_refund flag. -/
def get_user_refundable_amount (db : DB) (user_id : String) : Int × Bool :=
  match get_user_balance db user_id with
  | none => (0, false)
  | some b => (b.refundable_balance, !(has_pending_refund_request db user_id))

/-- schemas/refund_schema.py RefundRequestCreate of the new refund system. -/
structure RefundRequestCreateData where
  bank_name : String
  account_number : String
  account_holder : String
  refund_amount : Int
  contact : String
  reason : String
  deriving Repr, DecidableEq

/-- crud_refund_new.create_refund_request (crud/crud_refund_new.py line 79):
rejects when a pending request already exists (or no balance row exists), when
the amount exceeds the refundable balance, or when it is below 1000; otherwise
persists a pending request.  The ledger is never touched. -/
def create_refund_request (db : DB) (user_id : String)
    (refund_data : RefundRequestCreateData) : Except String (RefundRequest × DB) :=
  let refundable_info := get_user_refundable_amount db user_id
  if !refundable_info.2 then
    .error "a refund request is already being processed"
  else if refund_data.refund_amount > refundable_info.1 then
    .error "amount exceeds the refundable balance"
  else if refund_data.refund_amount < 1000 then
    .error "minimum refund amount is 1000"
  else
    let row : RefundRequest :=
      { refund_request_id := db.nextId, user_id := user_id,
        bank_name := refund_data.bank_name,
        account_number := refund_data.account_number,
        account_holder := refund_data.account_holder,
        refund_amount := refund_data.refund_amount,
        contact := refund_data.contact, reason := refund_data.reason,
        status := "pending", processed_at := none, admin_memo := none }
    .ok (row, { db with refunds := db.refunds ++ [row], nextId := db.nextId + 1 })

/-- crud_refund_new.approve_refund_new (crud/crud_refund_new.py line 120):
fails on a non-pending request, re-validates the refundable balance, debits
exactly the requested amount from the refundable pool (and the total), records
a usage row and marks the request approved, all in one commit. -/
def approve_refund_new (db : DB) (now : Int) (refund_request : RefundRequest)
    (admin_memo : Option String) : Except String (RefundRequest × DB) :=
  if refund_request.status != "pending" then
    .error "request already processed"
  else
    match get_user_balance db refund_request.user_id with
    | none => .error "no balance record for the user"
    | some user_balance =>
      if user_balance.refundable_balance < refund_request.refund_amount then
        .error "refundable balance is insufficient"
      else
        let b2 : UserBalance :=
          { user_balance with
            refundable_balance :=
              user_balance.refundable_balance - refund_request.refund_amount,
            total_balance :=
              user_balance.total_balance - refund_request.refund_amount }
        let db2 := setBalance db refund_request.user_id b2
        let usage : UsageHistory :=
          { usage_history_id := db2.nextId, user_id := refund_request.user_id,
            amount := refund_request.refund_amount, service_type := "refund",
            service_id := some (toString refund_request.refund_request_id) }
        let rr2 : RefundRequest :=
          { refund_request with
            status := "approved"
            processed_at := some now
            admin_memo := admin_memo }
        .ok (rr2,
          { db2 with
            usages := db2.usages ++ [usage]
            refunds := updateWhere
              (fun r => r.refund_request_id == refund_request.refund_request_id)
              rr2 db2.refunds
            nextId := db2.nextId + 1 })

/-- Rate-limit policy entry of RATE_LIMIT_CONFIGS (crud/crud_rate_limit.py
line 12). -/
structure RateConfig where
  max_attempts : Nat
  period_minutes : Int
  deriving Repr, DecidableEq

/-- RATE_LIMIT_CONFIGS (crud/crud_rate_limit.py line 12): deposit generation
1/minute, refund request 3/hour, balance deduct 10/minute; other action kinds
have no config. -/
def RATE_LIMIT_CONFIGS (action_type : String) : Option RateConfig :=
  if action_type == "deposit_generate" then
    some { max_attempts := 1, period_minutes := 1 }
  else if action_type == "refund_request" then
    some { max_attempts := 3, period_minutes := 60 }
  else if action_type == "balance_deduct" then
    some { max_attempts := 10, period_minutes := 1 }
  else
    none

/-- Result shape of check_rate_limit, restricted to the consumed fields. -/
structure RateCheckResult where
  allowed : Bool
  remaining_attempts : Nat
  reset_time : Option Int
  current_count : Nat
  limit_per_period : Nat
  period_minutes : Int
  deriving Repr, DecidableEq

/-- Rows counted by check_rate_limit: same user, same action kind, created at
or after now - period. -/
def rateWindow (db : DB) (now : Int) (user_id action_type : String)
    (period_minutes : Int) : List RateLimitLog :=
  db.rateLogs.filter (fun l =>
    l.user_id == user_id && l.action_type == action_type &&
    decide (now - period_minutes ≤ l.created_at))

/-- crud_rate_limit.check_rate_limit (crud/crud_rate_limit.py line 54): counts
the window rows, allows iff strictly below the limit, and on denial reports the
oldest in-window creation time plus the window length as the reset time. -/
def check_rate_limit (db : DB) (now : Int) (user_id : String)
    (action_type : String) : Except String RateCheckResult :=
  match RATE_LIMIT_CONFIGS action_type with
  | none => .error "unsupported action type"
  | some config =>
    let inWindow := rateWindow db now user_id action_type config.period_minutes
    let current_count := inWindow.length
    let allowed := decide (current_count < config.max_attempts)
    let remaining_attempts := config.max_attempts - current_count
    let reset_time :=
      if !allowed then
        match (inWindow.map (fun l => l.created_at)).min? with
        | some oldest_created_at => some (oldest_created_at + config.period_minutes)
        | none => some now
      else
        none
    .ok { allowed := allowed, remaining_attempts := remaining_attempts,
          reset_time := reset_time, current_count := current_count,
          limit_per_period := config.max_attempts,
          period_minutes := config.period_minutes }

/-- Apply f to every row satisfying p (an UPDATE ... WHERE p SET shape). -/
def mapWhere {α : Type} (p : α → Bool) (f : α → α) (l : List α) : List α :=
  l.map (fun x => if p x then f x else x)

/-- Python truthiness of an optional int (None and 0 are falsy). -/
def pyTruthyInt : Option Int → Bool
  | none => false
  | some a => a != 0

/-- Python truthiness of an optional string (None and the empty string are falsy). -/
def pyTruthyStr : Option String → Bool
  | none => false
  | some s => s != ""

/-- Python str.strip(): drop leading and trailing whitespace.  (Defined by
structural recursion over the character list so that concrete inputs evaluate
inside the kernel.) -/
def pyStrip (s : String) : String :=
  ⟨((s.data.dropWhile Char.isWhitespace).reverse.dropWhile
      Char.isWhitespace).reverse⟩

/-- schemas/sms_schema.py SmsLogCreate, before pydantic validation. -/
structure SmsLogCreateData where
  raw_message : String
  parsed_amount : Option Int := none
  parsed_name : Option String := none
  parsed_time : Option Int := none
  processing_status : String := "received"
  error_message : Option String := none
  deriving Repr, DecidableEq

/-- The SmsLogCreate pydantic validators (schemas/sms_schema.py lines 38-58):
the raw message must be non-blank and at most 1000 characters and is stripped;
a parsed amount must be positive; a blank parsed name becomes None, a name
longer than 50 characters is rejected, and the stored name is stripped. -/
def validateParsedAmount (v : Option Int) : Except String (Option Int) :=
  match v with
  | some v => if v ≤ 0 then .error "parsed amount must be positive" else .ok (some v)
  | none => .ok none

def validateParsedName (v : Option String) : Except String (Option String) :=
  match v with
  | some v =>
    if (pyStrip v).length = 0 then .ok none
    else if v.length > 50 then .error "payer name is too long"
    else .ok (some (pyStrip v))
  | none => .ok none

def validate_sms_log_create (d : SmsLogCreateData) : Except String SmsLogCreateData :=
  if pyStrip d.raw_message = "" then
    .error "SMS message content is required"
  else if d.raw_message.length > 1000 then
    .error "SMS message is too long"
  else
    match validateParsedAmount d.parsed_amount with
    | .error e => .error e
    | .ok amount =>
      match validateParsedName d.parsed_name with
      | .error e => .error e
      | .ok name =>
        .ok { d with
              raw_message := pyStrip d.raw_message
              parsed_amount := amount
              parsed_name := name }

/-- crud_sms.check_duplicate_sms (crud/crud_sms.py line 46): a row whose
(amount, payer name, time) triple coincides exactly. -/
def check_duplicate_sms (db : DB) (amount : Int) (name : String) (time : Int) :
    Option (Option SmsLog) :=
  scalarOneOrNone (db.smsLogs.filter (fun l =>
    l.parsed_amount == some amount && l.parsed_name == some name &&
    l.parsed_time == some time))

/-- crud_sms.create_sms_log (crud/crud_sms.py line 16): when amount, name and
time are all (Python-)truthy, an existing row with the identical triple makes
the call raise; otherwise the row is appended unconditionally. -/
def smsDupGate (db : DB) (d : SmsLogCreateData) : Except String Unit :=
  match d.parsed_amount, d.parsed_name, d.parsed_time with
  | some a, some n, some t =>
    if a != 0 && n != "" then
      match check_duplicate_sms db a n t with
      | none => Except.error "multiple results found"
      | some (some _) => Except.error "SMS already processed"
      | some none => Except.ok ()
    else Except.ok ()
  | _, _, _ => Except.ok ()

def create_sms_log (db : DB) (d : SmsLogCreateData) : Except String (SmsLog × DB) :=
  match smsDupGate db d with
  | .error e => .error e
  | .ok _ =>
    let sms_log : SmsLog :=
      { sms_log_id := db.nextId, raw_message := d.raw_message,
        parsed_amount := d.parsed_amount, parsed_name := d.parsed_name,
        parsed_time := d.parsed_time, processing_status := d.processing_status,
        matched_deposit_id := none, error_message := d.error_message }
    .ok (sms_log, { db with smsLogs := db.smsLogs ++ [sms_log], nextId := db.nextId + 1 })

/-- crud_sms.create_unmatched_deposit (crud/crud_sms.py line 65). -/
def create_unmatched_deposit (db : DB) (sms_log : SmsLog) : UnmatchedDeposit × DB :=
  let row : UnmatchedDeposit :=
    { unmatched_deposit_id := db.nextId, raw_message := sms_log.raw_message,
      parsed_amount := sms_log.parsed_amount, parsed_name := sms_log.parsed_name,
      parsed_time := sms_log.parsed_time, status := "unmatched",
      matched_user_id := none, matched_at := none }
  (row, { db with unmatched := db.unmatched ++ [row], nextId := db.nextId + 1 })

/-- crud_sms.update_sms_log_status (crud/crud_sms.py line 427). -/
def update_sms_log_status (db : DB) (sms_log_id : Nat) (status : String)
    (error_message : Option String) : DB :=
  { db with
    smsLogs := mapWhere (fun l => l.sms_log_id == sms_log_id)
      (fun l => { l with processing_status := status, error_message := error_message })
      db.smsLogs }

/-- crud_sms.find_matching_deposit_request (crud/crud_sms.py line 339): a
pending request with exactly this payer name; the amount argument is accepted
but (deliberately) not used in the query, and no time bound is applied. -/
def find_matching_deposit_request (db : DB) (deposit_name : String) (amount : Int) :
    Option (Option DepositRequest) :=
  let _ := amount
  scalarOneOrNone (db.deposits.filter (fun d =>
    d.deposit_name == deposit_name && d.status == "pending"))

/-- Step 1 of crud_sms.process_matched_deposit: mark_deposit_completed
(crud/crud_deposit.py line 172), which commits on its own. -/
def mark_deposit_completed (db : DB) (now : Int) (deposit_request_id : Nat) : DB :=
  { db with
    deposits := mapWhere (fun d => d.deposit_request_id == deposit_request_id)
      (fun d => { d with status := "completed", matched_at := some now })
      db.deposits }

/-- The ChargeHistoryCreate built by process_matched_deposit (crud/crud_sms.py
line 376): actual transaction amount, source deposit, refundable by default. -/
def matchedChargeData (deposit_request : DepositRequest) (actual_amount : Int) :
    ChargeHistoryCreate :=
  { user_id := deposit_request.user_id,
    deposit_request_id := some deposit_request.deposit_request_id,
    amount := actual_amount }

/-- crud_sms.process_matched_deposit (crud/crud_sms.py line 359), run to
completion: mark the request completed, create a charge-history row for the
actual transaction amount, credit the ledger by that amount (refundable),
append a balance-change log and mark the SMS row processed.  Each sub-call
commits on its own, so an error leaves every change committed so far in
place (the final rollback only discards uncommitted session changes). -/
def process_matched_deposit (db : DB) (now : Int) (sms_log : SmsLog)
    (deposit_request : DepositRequest) : (Except String Int) × DB :=
  let db1 := mark_deposit_completed db now deposit_request.deposit_request_id
  match sms_log.parsed_amount with
  | none => (.error "charge amount must be positive", db1)
  | some actual_amount =>
    match create_charge_history db1 (matchedChargeData deposit_request actual_amount) with
    | .error e => (.error e, db1)
    | .ok (charge_history, db2) =>
      match get_or_create_user_balance db2 deposit_request.user_id with
      | .error e => (.error e, db2)
      | .ok (user_balance, db3) =>
        let balance_before := user_balance.total_balance
        let b2 := user_balance.add_balance actual_amount true
        let db4 := setBalance db3 deposit_request.user_id b2
        let db5 := create_balance_change_log db4 deposit_request.user_id "charge"
          actual_amount balance_before b2.total_balance
          (some "charge_histories") (some charge_history.charge_history_id)
        let db6 :=
          { db5 with
            smsLogs := mapWhere (fun l => l.sms_log_id == sms_log.sms_log_id)
              (fun l => { l with
                          matched_deposit_id := some deposit_request.deposit_request_id
                          processing_status := "processed" })
              db5.smsLogs }
        (.ok actual_amount, db6)

/-- A run of process_matched_deposit in which the persistence layer raises at
the balance-lookup step, i.e. after the charge-history commit and before the
balance-change-log commit.  The except branch calls db.rollback(), which only
discards uncommitted session changes: the two earlier commits (request marked
completed, charge-history row) remain in the store. -/
def process_matched_deposit_interrupted (db : DB) (now : Int) (sms_log : SmsLog)
    (deposit_request : DepositRequest) : DB :=
  let db1 := mark_deposit_completed db now deposit_request.deposit_request_id
  match sms_log.parsed_amount with
  | none => db1
  | some actual_amount =>
    match create_charge_history db1 (matchedChargeData deposit_request actual_amount) with
    | .error _ => db1
    | .ok (_, db2) => db2

/-- The bank-format field extraction of crud_sms.parse_bank_sms (crud/crud_sms.py
lines 222-265), abstracted as a pure, deterministic function of the raw text
(the source runs a fixed list of regular expressions over the message). -/
structure SmsParseCore where
  amount : String → Option Int
  name : String → Option String

/-- The parsed-data record produced by parse_bank_sms. -/
structure SmsParsedData where
  amount : Option Int
  deposit_name : Option String
  transaction_time : Int
  deriving Repr, DecidableEq

/-- crud_sms.parse_bank_sms (crud/crud_sms.py line 218): extracts amount and
payer name from the text and sets the transaction time to the CURRENT clock
time (crud/crud_sms.py line 268), not to a timestamp parsed from the message. -/
def parse_bank_sms (pc : SmsParseCore) (now : Int) (raw_message : String) :
    SmsParsedData :=
  { amount := pc.amount raw_message, deposit_name := pc.name raw_message,
    transaction_time := now }

/-- Outcome of process_sms_message, mirroring the returned dicts. -/
inductive SmsResult where
  | parseFailed (sms_log_id : Nat)
  | matched (sms_log_id : Nat) (charged_amount : Int)
  | unmatchedKept (sms_log_id : Nat) (unmatched_deposit_id : Nat)
  | failure (msg : String)
  deriving Repr, DecidableEq

/-- The parse-failure branch of process_sms_message (crud/crud_sms.py lines
282-295): persist a failed row carrying the raw text and surface the error. -/
def process_sms_parse_failure (db : DB) (raw_message : String) : SmsResult × DB :=
  match validate_sms_log_create
    { raw_message := raw_message, processing_status := "failed",
      error_message := some "SMS parse failed" } with
  | .error e => (.failure e, db)
  | .ok d =>
    match create_sms_log db d with
    | .error e => (.failure e, db)
    | .ok (sms_log, db1) => (.parseFailed sms_log.sms_log_id, db1)

/-- crud_sms.process_sms_message (crud/crud_sms.py line 272): parse, store the
SMS row (failed row on parse failure), then match; exceptions are caught and
reported as a failure dict, leaving exactly the already-committed changes. -/
def process_sms_message (pc : SmsParseCore) (db : DB) (now : Int)
    (raw_message : String) : SmsResult × DB :=
  let parsed_data := parse_bank_sms pc now raw_message
  match parsed_data.amount, parsed_data.deposit_name with
  | some a, some n =>
    if a != 0 && n != "" then
      match validate_sms_log_create
        { raw_message := raw_message, parsed_amount := some a,
          parsed_name := some n, parsed_time := some parsed_data.transaction_time,
          processing_status := "received" } with
      | .error e => (.failure e, db)
      | .ok d =>
        match create_sms_log db d with
        | .error e => (.failure e, db)
        | .ok (sms_log, db1) =>
          match find_matching_deposit_request db1 n a with
          | none => (.failure "multiple results found", db1)
          | some (some deposit_request) =>
            match process_matched_deposit db1 now sms_log deposit_request with
            | (.error e, db2) => (.failure e, db2)
            | (.ok amt, db2) => (.matched sms_log.sms_log_id amt, db2)
          | some none =>
            let (unmatched_deposit, db2) := create_unmatched_deposit db1 sms_log
            let db3 := update_sms_log_status db2 sms_log.sms_log_id "processed" none
            (.unmatchedKept sms_log.sms_log_id unmatched_deposit.unmatched_deposit_id, db3)
    else
      process_sms_parse_failure db raw_message
  | _, _ =>
    process_sms_parse_failure db raw_message

/-- schemas/sms_schema.py ManualMatchRequest (validated: confirmed_amount > 0). -/
structure ManualMatchRequest where
  unmatched_deposit_id : Nat
  user_id : String
  confirmed_amount : Int
  deriving Repr, DecidableEq

/-- crud_sms.match_deposit_manually (crud/crud_sms.py line 144): credits the
target user by the confirmed amount (refundable), appends charge-history and
balance-change rows and marks the unmatched row matched. -/
def match_deposit_manually (db : DB) (now : Int) (mr : ManualMatchRequest) :
    (Except String Int) × DB :=
  match db.unmatched.find? (fun u => u.unmatched_deposit_id == mr.unmatched_deposit_id) with
  | none => (.error "unmatched deposit does not exist", db)
  | some unmatched_deposit =>
    if unmatched_deposit.status != "unmatched" then
      (.error "deposit already processed", db)
    else if !(db.users.any (fun u => u.1 == mr.user_id)) then
      (.error "user does not exist", db)
    else
      match create_charge_history db
        { user_id := mr.user_id, deposit_request_id := none,
          amount := mr.confirmed_amount } with
      | .error e => (.error e, db)
      | .ok (charge_history, db1) =>
        match get_or_create_user_balance db1 mr.user_id with
        | .error e => (.error e, db1)
        | .ok (user_balance, db2) =>
          let balance_before := user_balance.total_balance
          let b2 := user_balance.add_balance mr.confirmed_amount true
          let db3 := setBalance db2 mr.user_id b2
          let db4 := create_balance_change_log db3 mr.user_id "charge"
            mr.confirmed_amount balance_before b2.total_balance
            (some "charge_histories") (some charge_history.charge_history_id)
          let db5 :=
            { db4 with
              unmatched := mapWhere
                (fun u => u.unmatched_deposit_id == mr.unmatched_deposit_id)
                (fun u => { u with
                            status := "matched"
                            matched_user_id := some mr.user_id
                            matched_at := some now })
                db4.unmatched }
          (.ok mr.confirmed_amount, db5)

/-- ORDER BY created_at DESC LIMIT 1 over a result list: the first row carrying
the maximal created_at value. -/
def latestBy : List DepositRequest → Option DepositRequest
  | [] => none
  | d :: rest =>
    match latestBy rest with
    | none => some d
    | some r => if d.created_at < r.created_at then some r else some d

/-- The WHERE clause of crud_deposit.get_existing_active_request: same user,
status pending, not yet expired. -/
def activeRequestPred (now : Int) (user_id : String) (d : DepositRequest) : Bool :=
  d.user_id == user_id && d.status == "pending" && decide (now < d.expires_at)

/-- crud_deposit.get_existing_active_request (crud/crud_deposit.py line 14):
the most recent pending, non-expired request of the user, if any. -/
def get_existing_active_request (db : DB) (now : Int) (user_id : String) :
    Option DepositRequest :=
  latestBy (db.deposits.filter (activeRequestPred now user_id))

/-- crud_deposit.check_user_rate_limit_deposit (crud/crud_deposit.py line 312):
allowed iff the user created no deposit request during the past minute. -/
def check_user_rate_limit_deposit (db : DB) (now : Int) (user_id : String) : Bool :=
  (db.deposits.filter (fun d =>
    d.user_id == user_id && decide (now - 1 ≤ d.created_at))).length == 0

/-- crud_deposit.generate_unique_deposit_name (crud/crud_deposit.py line 94):
up to 100 attempts of nickname + 4 random digits, retried against the
currently-active names; the digit draws are passed in as a function of the
attempt index.  Names are checked only against pending, non-expired rows. -/
def generate_unique_deposit_name (db : DB) (now : Int) (nickname : String)
    (randomDigits : Nat → String) : Except String String :=
  match (List.range 100).find? (fun i =>
    (db.deposits.find? (fun d =>
      d.deposit_name == (nickname ++ randomDigits i) && d.status == "pending" &&
      decide (now < d.expires_at))).isNone) with
  | some i => .ok (nickname ++ randomDigits i)
  | none => .error "failed to generate a unique deposit name"

/-- schemas/deposit_schema.py DepositRequestCreate. -/
structure DepositRequestCreate where
  bank_name : String := "KB"
  account_number : String := "12345678901234"
  deriving Repr, DecidableEq

/-- crud_deposit.create_deposit_request (crud/crud_deposit.py line 30): checks
the user, returns any active pending request unchanged, expires stale pending
rows, generates a fresh unique name and persists a new request with amount 1
and a one-hour expiry horizon. -/
def create_deposit_request (db : DB) (now : Int) (user_id : String)
    (deposit_data : DepositRequestCreate) (randomDigits : Nat → String) :
    Except String (DepositRequest × DB) :=
  match db.users.find? (fun u => u.1 == user_id) with
  | none => .error "user not found"
  | some user =>
    match get_existing_active_request db now user_id with
    | some existing => .ok (existing, db)
    | none =>
      let db1 :=
        { db with
          deposits := mapWhere (fun d =>
              d.user_id == user_id && d.status == "pending" &&
              decide (d.expires_at ≤ now))
            (fun d => { d with status := "expired" })
            db.deposits }
      match generate_unique_deposit_name db1 now user.2 randomDigits with
      | .error e => .error e
      | .ok deposit_name =>
        let row : DepositRequest :=
          { deposit_request_id := db1.nextId, user_id := user_id,
            deposit_name := deposit_name, amount := some 1,
            bank_name := deposit_data.bank_name,
            account_number := deposit_data.account_number,
            status := "pending", created_at := now, expires_at := now + 60,
            matched_at := none }
        .ok (row, { db1 with
                    deposits := db1.deposits ++ [row]
                    nextId := db1.nextId + 1 })

/-- Outcome of the generate_deposit_name controller, mirroring its dicts. -/
inductive GenerateResult where
  | success (deposit_request_id : Nat) (deposit_name : String)
  | rateLimited
  | failure (msg : String)
  deriving Repr, DecidableEq

/-- payments_controller.generate_deposit_name (controllers/payments_controller.py
line 20): an existing active request is returned as-is with no rate-limit
check; only the creation of a brand-new request consults the limiter. -/
def generate_deposit_name (db : DB) (now : Int) (user_id : String)
    (deposit_data : DepositRequestCreate) (randomDigits : Nat → String) :
    GenerateResult × DB :=
  match get_existing_active_request db now user_id with
  | some deposit_request =>
    (.success deposit_request.deposit_request_id deposit_request.deposit_name, db)
  | none =>
    if !(check_user_rate_limit_deposit db now user_id) then
      (.rateLimited, db)
    else
      match create_deposit_request db now user_id deposit_data randomDigits with
      | .error e => (.failure e, db)
      | .ok (deposit_request, db1) =>
        (.success deposit_request.deposit_request_id deposit_request.deposit_name, db1)

/-! ### The routed SMS ingestion path (controllers/sms_controller.py), wired
from POST /api/v1/sms/parse in routers/sms.py -/

/-- crud_deposit.get_deposit_request (crud/crud_deposit.py line 120). -/
def get_deposit_request (db : DB) (deposit_request_id : Nat) : Option DepositRequest :=
  db.deposits.find? (fun d => d.deposit_request_id == deposit_request_id)

/-- crud_sms.get_sms_logs with skip 0 and limit 1 (crud/crud_sms.py line 452):
the single most recent row by created_at; rows are appended in creation order
in this model, so the most recent row is the last one. -/
def get_most_recent_sms_log (db : DB) : Option SmsLog :=
  db.smsLogs.getLast?

/-- The regex field extraction shared by parse_woori_bank_sms and the generic
pattern of parse_bank_sms_format (controllers/sms_controller.py lines 83-205),
abstracted as a pure, deterministic function of the raw text.  On success it
yields the amount, the payer name (the regex group is returned stripped,
lines 106 and 164) and the in-text date/time (the month/day hour:minute
digits read from the MESSAGE TEXT, lines 103-104 and 161-162). -/
structure SmsFormatCore where
  extract : String → Option (Int × String × Int)

/-- The strptime combination of the in-text date/time with the clock year
(controllers/sms_controller.py lines 118-123 and 176-185): the resulting
timestamp is a function of exactly these two values. -/
def transaction_time_of (current_year text_time : Int) : Int :=
  current_year * 1000000 + text_time

/-- sms_controller.parse_bank_sms_format (controllers/sms_controller.py line
83): extract amount, payer name and the in-text date/time, and attach the
current clock year; none models the success=False dict. -/
def parse_bank_sms_format (fc : SmsFormatCore) (current_year : Int)
    (raw_message : String) : Option (Int × String × Int) :=
  match fc.extract raw_message with
  | none => none
  | some (amount, deposit_name, text_time) =>
    some (amount, deposit_name, transaction_time_of current_year text_time)

/-- Outcome of sms_controller.parse_sms_message, mirroring its dicts. -/
inductive ParseSmsResult where
  | parseFailed
  | duplicate
  | stored (sms_log_id : Nat) (amount : Int) (deposit_name : String) (time : Int)
  | failure (msg : String)
  deriving Repr, DecidableEq

namespace SmsController

/-- sms_controller.parse_sms_message (controllers/sms_controller.py line 15):
parse the text, reject a triple already present as DUPLICATE_SMS before
creating any row, then validate and persist the SMS log; exceptions are
caught and reported with the store untouched. -/
def parse_sms_message (fc : SmsFormatCore) (db : DB) (current_year : Int)
    (raw_message : String) : ParseSmsResult × DB :=
  match parse_bank_sms_format fc current_year raw_message with
  | none => (.parseFailed, db)
  | some (amount, deposit_name, transaction_time) =>
    match check_duplicate_sms db amount deposit_name transaction_time with
    | none => (.failure "multiple results found", db)
    | some (some _) => (.duplicate, db)
    | some none =>
      match validate_sms_log_create
        { raw_message := raw_message, parsed_amount := some amount,
          parsed_name := some deposit_name, parsed_time := some transaction_time,
          processing_status := "received" } with
      | .error e => (.failure e, db)
      | .ok d =>
        match create_sms_log db d with
        | .error e => (.failure e, db)
        | .ok (sms_log, db1) =>
          (.stored sms_log.sms_log_id amount deposit_name transaction_time, db1)

/-- sms_controller.match_deposit (controllers/sms_controller.py line 208): a
wrapper around find_matching_deposit_request; its 24-hour argument is accepted
and, like the amount, unused by the underlying query. -/
def match_deposit (db : DB) (parsed_amount : Int) (parsed_name : String) :
    Option (Option DepositRequest) :=
  find_matching_deposit_request db parsed_name parsed_amount

/-- payments_controller.process_payment (controllers/payments_controller.py
line 101): after ownership and pending checks, mark the request completed
(commits), create the charge-history row for the confirmed amount (commits),
then credit the balance and append the audit row; each sub-call commits on
its own and an exception is caught with the committed prefix kept. -/
def process_payment (db : DB) (now : Int) (user_id : String)
    (deposit_request_id : Nat) (confirmed_amount : Option Int) :
    (Except String Int) × DB :=
  match get_deposit_request db deposit_request_id with
  | none => (.error "deposit request not found", db)
  | some deposit_request =>
    if deposit_request.user_id != user_id then
      (.error "unauthorized deposit request", db)
    else if deposit_request.status != "pending" then
      (.error "deposit request already processed", db)
    else
      let db1 := mark_deposit_completed db now deposit_request_id
      match confirmed_amount with
      | none => (.error "charge amount must be positive", db1)
      | some amt =>
        match create_charge_history db1
          { user_id := user_id, deposit_request_id := some deposit_request_id,
            amount := amt } with
        | .error e => (.error e, db1)
        | .ok (charge_history, db2) =>
          match get_or_create_user_balance db2 user_id with
          | .error e => (.error e, db2)
          | .ok (user_balance, db3) =>
            let balance_before := user_balance.total_balance
            match update_user_balance db3 user_id amt true true with
            | .error e => (.error e, db3)
            | .ok (updated_balance, db4) =>
              let db5 := create_balance_change_log db4 user_id "charge" amt
                balance_before updated_balance.total_balance
                (some "charge_histories") (some charge_history.charge_history_id)
              (.ok amt, db5)

/-- sms_controller.process_matched_deposit (controllers/sms_controller.py line
258): looks the SMS row up through the limit-1 recent query, runs the payment
for the actual parsed amount and updates the SMS status accordingly. -/
def process_matched_deposit (db : DB) (now : Int) (sms_log_id : Nat)
    (deposit_request_id : Nat) : (Except String Int) × DB :=
  match get_most_recent_sms_log db with
  | none => (.error "sms log not found", db)
  | some sms_log =>
    if sms_log.sms_log_id != sms_log_id then
      (.error "sms log not found", db)
    else
      match get_deposit_request db deposit_request_id with
      | none => (.error "deposit request not found", db)
      | some deposit_request =>
        match process_payment db now deposit_request.user_id deposit_request_id
          sms_log.parsed_amount with
        | (.ok amt, db1) =>
          (.ok amt, update_sms_log_status db1 sms_log_id "processed" none)
        | (.error e, db1) =>
          (.error e, update_sms_log_status db1 sms_log_id "failed"
            (some ("payment failed: " ++ e)))

/-- sms_controller.handle_unmatched_deposit (controllers/sms_controller.py
line 336): park the parsed transaction in the unmatched table and mark the
SMS row processed. -/
def handle_unmatched_deposit (db : DB) (sms_log_id : Nat) :
    (Except String Nat) × DB :=
  match get_most_recent_sms_log db with
  | none => (.error "sms log not found", db)
  | some sms_log =>
    if sms_log.sms_log_id != sms_log_id then
      (.error "sms log not found", db)
    else
      let p := create_unmatched_deposit db sms_log
      (.ok p.1.unmatched_deposit_id,
        update_sms_log_status p.2 sms_log_id "processed" none)

/-- Outcome of process_sms_end_to_end, mirroring its flow field. -/
inductive E2EResult where
  | stepOneFailed (r : ParseSmsResult)
  | matchFailed (msg : String)
  | matchedAndProcessed (result : Except String Int)
  | unmatchedStored (result : Except String Nat)
  deriving Repr

/-- sms_controller.process_sms_end_to_end (controllers/sms_controller.py line
387), the function called by POST /api/v1/sms/parse: parse and store, then
match and either credit or park the transaction.  A step-1 rejection — parse
failure or duplicate — returns with the store untouched. -/
def process_sms_end_to_end (fc : SmsFormatCore) (db : DB) (now current_year : Int)
    (raw_message : String) : E2EResult × DB :=
  match parse_sms_message fc db current_year raw_message with
  | (.stored sms_log_id parsed_amount parsed_name _, db1) =>
    match match_deposit db1 parsed_amount parsed_name with
    | none => (.matchFailed "multiple results found", db1)
    | some (some deposit_request) =>
      let p := process_matched_deposit db1 now sms_log_id
        deposit_request.deposit_request_id
      (.matchedAndProcessed p.1, p.2)
    | some none =>
      let p := handle_unmatched_deposit db1 sms_log_id
      (.unmatchedStored p.1, p.2)
  | (r, db1) => (.stepOneFailed r, db1)

end SmsController

/-- Number of stored SMS rows carrying exactly this (amount, payer name,
time) triple — the rows the duplicate check looks for. -/
def tripleCount (db : DB) (amount : Int) (name : String) (time : Int) : Nat :=
  (db.smsLogs.filter (fun l =>
    l.parsed_amount == some amount && l.parsed_name == some name &&
    l.parsed_time == some time)).length

/-- The SmsTransaction row appended by a successful first ingestion of a fresh
message: stripped raw text, the parsed triple, status "received". -/
def storedSmsRow (db : DB) (raw : String) (a : Int) (n : String) (t : Int) : SmsLog :=
  { sms_log_id := db.nextId, raw_message := pyStrip raw,
    parsed_amount := some a, parsed_name := some n, parsed_time := some t,
    processing_status := "received", matched_deposit_id := none,
    error_message := none }

/-- The store after step one of a successful first ingestion: the fresh row
appended, the id counter advanced. -/
def storedSmsDB (db : DB) (raw : String) (a : Int) (n : String) (t : Int) : DB :=
  { db with
    smsLogs := db.smsLogs ++ [storedSmsRow db raw a n t]
    nextId := db.nextId + 1 }

/-- The deduction outcome described by the specification, for comparison with
UserBalance.deduct_balance: min(amount, non_refundable_balance) is taken from
the non-refundable pool first and only the remainder from the refundable pool,
with the total reduced by the full amount. -/
def specDeductedBalance (b : UserBalance) (amount : Int) : UserBalance :=
  { b with
    non_refundable_balance :=
      b.non_refundable_balance - min amount b.non_refundable_balance
    refundable_balance :=
      b.refundable_balance - (amount - min amount b.non_refundable_balance)
    total_balance := b.total_balance - amount }

/-! ### Concrete stores used to witness the theorems below -/

/-- A store with no rows at all. -/
def emptyDB : DB :=
  { users := [], balances := [], deposits := [], smsLogs := [], unmatched := [],
    charges := [], usages := [], refunds := [], rateLogs := [], changeLogs := [],
    nextId := 1 }

/-- One user with total 10 = 6 refundable + 4 non-refundable. -/
def dbW : DB :=
  { emptyDB with
    users := [("u1", "alice")]
    balances := [⟨"u1", 10, 6, 4⟩] }

/-- A parse core recognising the single message "msg" as a 5000-unit deposit
by payer alice1234 (standing for the fixed regex tables of parse_bank_sms). -/
def pc0 : SmsParseCore :=
  { amount := fun r => if r == "msg" then some 5000 else none
    name := fun r => if r == "msg" then some "alice1234" else none }

/-- A store holding one user with a zeroed balance and one pending deposit
request under the virtual name alice1234. -/
def dbC3 : DB :=
  { emptyDB with
    users := [("u1", "alice")]
    balances := [⟨"u1", 0, 0, 0⟩]
    deposits := [⟨1, "u1", "alice1234", some 1, "KB", "123", "pending", 0, 60, none⟩]
    nextId := 2 }

/-- The received SMS row used in the interrupted-run scenario. -/
def smsC9 : SmsLog :=
  ⟨2, "msg", some 5000, some "alice1234", some 5, "received", none, none⟩

/-- The pending deposit request used in the interrupted-run scenario. -/
def depC9 : DepositRequest :=
  ⟨1, "u1", "alice1234", some 1, "KB", "123", "pending", 0, 60, none⟩

/-- dbC3 after the SMS row of the scenario has been persisted. -/
def dbC9 : DB :=
  { dbC3 with smsLogs := [smsC9], nextId := 3 }

/-- Ten balance-deduct rate-limit entries for one user, all created at time 10. -/
def dbR : DB :=
  { emptyDB with
    users := [("u1", "alice")]
    rateLogs := (List.range 10).map (fun i => ⟨i, "u1", "balance_deduct", 10⟩) }

/-- One user with a 5000-unit fully-refundable balance. -/
def dbB : DB :=
  { emptyDB with
    users := [("u1", "alice")]
    balances := [⟨"u1", 5000, 5000, 0⟩] }

/-- A well-formed 4000-unit refund request payload. -/
def rdB : RefundRequestCreateData :=
  ⟨"KB", "110-222", "alice", 4000, "010-1234", "changed my mind entirely"⟩

/-- A deduct request for 5 units. -/
def reqW : BalanceDeductRequest :=
  ⟨5, "course_generation", none⟩

/-- A pending 4000-unit refund request by u1. -/
def rrB : RefundRequest :=
  ⟨7, "u1", "KB", "110-222", "alice", 4000, "010-1234", "changed my mind entirely",
    "pending", none, none⟩

/-- A refund payload of 999 units, below the 1000 minimum. -/
def rd999 : RefundRequestCreateData :=
  ⟨"KB", "110-222", "alice", 999, "010-1234", "changed my mind entirely"⟩

/-- A format core for the routed parser recognising the single message "msg"
as a 5000-unit deposit by payer alice1234 sent at in-text time 100 (standing
for the fixed regex tables of parse_bank_sms_format). -/
def fcW : SmsFormatCore :=
  { extract := fun r => if r == "msg" then some (5000, "alice1234", 100) else none }

/-- A parse core that recognises nothing (every message fails to parse). -/
def pcNone : SmsParseCore :=
  { amount := fun _ => none, name := fun _ => none }

/-- An SmsLogCreate payload carrying only raw text (a parse-failed record). -/
def smsFailData : SmsLogCreateData :=
  { raw_message := "hello", processing_status := "failed",
    error_message := some "SMS parse failed" }

/-! ### The ledger invariant and its preservation by the balance primitives -/

/-- The invariant over a full list of balance rows. -/
def InvList (l : List UserBalance) : Prop := ∀ b ∈ l, BalInv b

/-- The claimed global ledger invariant: every user balance row satisfies
total = refundable + non-refundable with all three non-negative. -/
def InvDB (db : DB) : Prop := InvList db.balances

instance (l : List UserBalance) : Decidable (InvList l) := by
  unfold InvList; infer_instance

instance (db : DB) : Decidable (InvDB db) := by
  unfold InvDB; infer_instance

/-! ### Generic lemmas about the row-list combinators -/

theorem updateWhere_find? {α : Type} (p : α → Bool) (b2 : α) (hp : p b2 = true) :
    ∀ l : List α, (l.find? p).isSome → (updateWhere p b2 l).find? p = some b2 := by
  intro l
  induction l with
  | nil => intro h; simp [List.find?] at h
  | cons x xs ih =>
    intro h
    by_cases hx : p x = true
    · simp [updateWhere, List.find?_cons, hx, hp]
    · have hx2 : p x = false := by simpa using hx
      have hs : (xs.find? p).isSome := by
        simpa [List.find?_cons, hx2] using h
      simpa [updateWhere, List.find?_cons, hx2] using ih hs

theorem mapWhere_pred {α : Type} (p : α → Bool) (f : α → α) (Q : α → Prop)
    (h1 : ∀ x, p x = true → Q (f x)) :
    ∀ l : List α, ∀ d ∈ mapWhere p f l, p d = true → Q d := by
  intro l d hd hpd
  obtain ⟨y, hy, hdy⟩ := List.mem_map.mp hd
  by_cases hpy : p y = true
  · rw [if_pos hpy] at hdy
    exact hdy ▸ h1 y hpy
  · rw [if_neg hpy] at hdy
    exact absurd (hdy ▸ hpd) hpy

theorem BalInv.add {b : UserBalance} (h : BalInv b) {a : Int} (ha : 0 ≤ a)
    (r : Bool) : BalInv (b.add_balance a r) := by
  obtain ⟨h1, h2, h3, h4⟩ := h
  cases r <;>
    (unfold UserBalance.add_balance BalInv;
     simp only [Bool.false_eq_true, if_false, if_true]; omega)

theorem BalInv.deduct {b b2 : UserBalance} {a : Int} (ha : 0 ≤ a) (h : BalInv b)
    (hd : b.deduct_balance a = some b2) : BalInv b2 := by
  obtain ⟨h1, h2, h3, h4⟩ := h
  by_cases hs : a ≤ b.total_balance
  · have hs2 : b.has_sufficient_balance a = true := by
      simp [UserBalance.has_sufficient_balance, hs]
    unfold UserBalance.deduct_balance at hd
    rw [hs2] at hd
    simp only [Bool.not_true, Bool.false_eq_true, if_false] at hd
    split_ifs at hd <;>
      (injection hd with hd; subst hd; unfold BalInv; dsimp only; omega)
  · have hs2 : b.has_sufficient_balance a = false := by
      simp [UserBalance.has_sufficient_balance, hs]
    unfold UserBalance.deduct_balance at hd
    rw [hs2] at hd
    simp at hd

theorem InvList_updateWhere {l : List UserBalance} (h : InvList l)
    {p : UserBalance → Bool} {b2 : UserBalance} (hb : BalInv b2) :
    InvList (updateWhere p b2 l) := by
  intro x hx
  obtain ⟨y, hy, hxy⟩ := List.mem_map.mp hx
  by_cases hpy : p y = true
  · rw [if_pos hpy] at hxy; exact hxy ▸ hb
  · rw [if_neg hpy] at hxy; exact hxy ▸ h y hy

theorem InvList_append {l : List UserBalance} (h : InvList l)
    {b : UserBalance} (hb : BalInv b) : InvList (l ++ [b]) := by
  intro x hx
  rcases List.mem_append.mp hx with hx | hx
  · exact h x hx
  · simp at hx; exact hx ▸ hb

/-! ### C2: debit semantics -/

theorem deduct_balance_eq_spec (b : UserBalance) (a : Int) (ha : 0 ≤ a)
    (hnn : 0 ≤ b.non_refundable_balance) (hle : a ≤ b.total_balance) :
    b.deduct_balance a = some (specDeductedBalance b a) := by
  obtain ⟨uid, t, r, n⟩ := b
  replace hnn : 0 ≤ n := hnn
  replace hle : a ≤ t := hle
  have hs2 : (UserBalance.mk uid t r n).has_sufficient_balance a = true := by
    simp [UserBalance.has_sufficient_balance, hle]
  unfold UserBalance.deduct_balance
  rw [hs2]
  simp only [Bool.not_true, Bool.false_eq_true, if_false]
  have hspec : specDeductedBalance ⟨uid, t, r, n⟩ a =
      ⟨uid, t - a, r - (a - min a n), n - min a n⟩ := rfl
  rw [hspec]
  rcases le_total a n with hmin | hmin <;>
    [rw [min_eq_left hmin]; rw [min_eq_right hmin]] <;>
    split_ifs <;>
    (apply congrArg some;
     simp only [UserBalance.mk.injEq, true_and, and_true];
     try omega)

/-- C2: for every user with a balance row and every positive amount, the debit
entry point fails with the insufficient-balance error (raised before any
mutation, so the store is untouched) exactly when total_balance < amount; when
amount ≤ total_balance it succeeds — including the boundary amount =
total_balance, which leaves the total at 0 — deducting min(amount,
non_refundable_balance) from the non-refundable pool first and only the
remainder from the refundable pool. -/
theorem c2_debit_semantics (db : DB) (user_id : String) (req : BalanceDeductRequest)
    (b : UserBalance)
    (hb : get_user_balance db user_id = some b)
    (hpos : 0 < req.amount)
    (hnn : 0 ≤ b.non_refundable_balance) :
    (b.total_balance < req.amount →
      deduct_balance db user_id req = .error "insufficient balance") ∧
    (req.amount ≤ b.total_balance →
      ∃ usage db2,
        deduct_balance db user_id req =
          .ok (specDeductedBalance b req.amount, usage, db2) ∧
        get_user_balance db2 user_id = some (specDeductedBalance b req.amount) ∧
        (req.amount = b.total_balance →
          (specDeductedBalance b req.amount).total_balance = 0)) := by
  have hb2 : db.balances.find? (fun x => x.user_id == user_id) = some b := by
    simpa [get_user_balance] using hb
  have hbu : (b.user_id == user_id) = true := by
    simpa using List.find?_some hb2
  constructor
  · intro hlt
    have hs2 : b.has_sufficient_balance req.amount = false := by
      simp only [UserBalance.has_sufficient_balance, decide_eq_false_iff_not]
      omega
    unfold deduct_balance
    rw [hb]
    dsimp only
    rw [hs2]
    simp
  · intro hle
    have hd := deduct_balance_eq_spec b req.amount (le_of_lt hpos) hnn hle
    have hs2 : b.has_sufficient_balance req.amount = true := by
      simp [UserBalance.has_sufficient_balance, hle]
    unfold deduct_balance
    rw [hb]
    dsimp only
    rw [hs2]
    simp only [Bool.not_true, Bool.false_eq_true, if_false]
    rw [hd]
    dsimp only
    refine ⟨_, _, rfl, ?_, ?_⟩
    · have hfound : (db.balances.find? (fun x => x.user_id == user_id)).isSome := by
        have : db.balances.find? (fun x => x.user_id == user_id) = some b := by
          simpa [get_user_balance] using hb
        simp [this]
      have huid : (fun x => x.user_id == user_id) (specDeductedBalance b req.amount) = true := by
        simpa [specDeductedBalance] using hbu
      simpa [get_user_balance, setBalance] using
        updateWhere_find? (fun x => x.user_id == user_id)
          (specDeductedBalance b req.amount) huid db.balances hfound
    · intro heq
      simp only [specDeductedBalance]
      omega

/-- Witness for c2_debit_semantics: user u1 holds 10 = 6 refundable + 4
non-refundable; a 5-unit deduct succeeds, taking 4 from the non-refundable
pool and 1 from the refundable pool. -/
theorem c2_debit_semantics_witness :
    (0:Int) < 5 ∧ (0:Int) ≤ 4 ∧ (5:Int) ≤ 10 ∧
    ∃ usage db2,
      deduct_balance dbW "u1" reqW =
        .ok (specDeductedBalance ⟨"u1", 10, 6, 4⟩ 5, usage, db2) ∧
      get_user_balance db2 "u1" = some (specDeductedBalance ⟨"u1", 10, 6, 4⟩ 5) ∧
      ((5:Int) = 10 → (specDeductedBalance ⟨"u1", 10, 6, 4⟩ 5).total_balance = 0) :=
  ⟨by decide, by decide, by decide,
    (c2_debit_semantics dbW "u1" reqW ⟨"u1", 10, 6, 4⟩ rfl (by decide) (by decide)).2
      (by decide)⟩

/-! ### C1: the ledger invariant is preserved by every ledger-mutating operation -/

theorem get_user_balance_mem {db : DB} {user_id : String} {b : UserBalance}
    (h : get_user_balance db user_id = some b) : b ∈ db.balances :=
  List.mem_of_find?_eq_some (by simpa [get_user_balance] using h)

theorem get_or_create_inv {db : DB} {user_id : String} {b : UserBalance} {db2 : DB}
    (h : get_or_create_user_balance db user_id = .ok (b, db2)) (hinv : InvDB db) :
    InvDB db2 ∧ BalInv b := by
  unfold get_or_create_user_balance at h
  cases hg : get_user_balance db user_id with
  | some bb =>
    rw [hg] at h
    injection h with h
    injection h with h1 h2
    subst h1; subst h2
    exact ⟨hinv, hinv _ (get_user_balance_mem hg)⟩
  | none =>
    rw [hg] at h
    dsimp only at h
    split_ifs at h with hu
    · injection h with h
      injection h with h1 h2
      subst h1; subst h2
      have hz : BalInv
          ⟨user_id, 0, 0, 0⟩ := by unfold BalInv; dsimp only; omega
      exact ⟨InvList_append hinv hz, hz⟩

theorem create_charge_history_ok {db : DB} {c : ChargeHistoryCreate}
    {ch : ChargeHistory} {db2 : DB}
    (h : create_charge_history db c = .ok (ch, db2)) :
    0 < c.amount ∧ db2.balances = db.balances := by
  unfold create_charge_history at h
  split_ifs at h with ha
  injection h with h
  injection h with h1 h2
  subst h2
  exact ⟨by omega, rfl⟩

/-- C1: the ledger invariant total = refundable + non-refundable with all three
fields non-negative is preserved by each of the five ledger-mutating
operations: credit, debit, the matched-deposit credit, the manual-match
credit, and refund approval.  (A failed operation raises and commits nothing,
so only successful runs mutate the ledger.) -/
theorem c1_ledger_invariant (db : DB) (hinv : InvDB db) :
    (∀ user_id amount is_refundable b2 db2,
      0 < amount →
      update_user_balance db user_id amount true is_refundable = .ok (b2, db2) →
      InvDB db2) ∧
    (∀ user_id req b2 usage db2,
      (0:Int) < req.amount →
      deduct_balance db user_id req = .ok (b2, usage, db2) →
      InvDB db2) ∧
    (∀ now sms_log deposit_request amt db2,
      process_matched_deposit db now sms_log deposit_request = (.ok amt, db2) →
      InvDB db2) ∧
    (∀ now mr amt db2,
      match_deposit_manually db now mr = (.ok amt, db2) →
      InvDB db2) ∧
    (∀ now rr memo rr2 db2,
      approve_refund_new db now rr memo = .ok (rr2, db2) →
      InvDB db2) := by
  refine ⟨?_, ?_, ?_, ?_, ?_⟩
  · -- credit
    intro user_id amount is_refundable b2 db2 hpos h
    unfold update_user_balance at h
    cases hg : get_or_create_user_balance db user_id with
    | error e => rw [hg] at h; exact absurd h (by simp)
    | ok p =>
      obtain ⟨b, db1⟩ := p
      rw [hg] at h
      simp only [if_true] at h
      injection h with h
      injection h with h1 h2
      obtain ⟨hi1, hi2⟩ := get_or_create_inv hg hinv
      subst h2
      exact InvList_updateWhere hi1 (hi2.add (le_of_lt hpos) is_refundable)
  · -- debit
    intro user_id req b2 usage db2 hpos h
    unfold deduct_balance at h
    cases hg : get_user_balance db user_id with
    | none => rw [hg] at h; exact absurd h (by simp)
    | some b =>
      rw [hg] at h
      dsimp only at h
      split_ifs at h with hs
      cases hd : b.deduct_balance req.amount with
      | none => rw [hd] at h; exact absurd h (by simp)
      | some bd =>
        rw [hd] at h
        dsimp only at h
        injection h with h
        injection h with h1 h2
        injection h2 with h2 h3
        subst h3
        exact InvList_updateWhere hinv
          ((hinv _ (get_user_balance_mem hg)).deduct (le_of_lt hpos) hd)
  · -- matched-deposit credit
    intro now sms_log deposit_request amt db2 h
    unfold process_matched_deposit at h
    cases ha : sms_log.parsed_amount with
    | none => rw [ha] at h; exact absurd h (by simp)
    | some actual_amount =>
      rw [ha] at h
      dsimp only at h
      cases hch : create_charge_history
          (mark_deposit_completed db now deposit_request.deposit_request_id)
          (matchedChargeData deposit_request actual_amount) with
      | error e => rw [hch] at h; exact absurd h (by simp)
      | ok p =>
        obtain ⟨ch, dbc⟩ := p
        rw [hch] at h
        dsimp only at h
        cases hgo : get_or_create_user_balance dbc deposit_request.user_id with
        | error e => rw [hgo] at h; exact absurd h (by simp)
        | ok q =>
          obtain ⟨ub, db3⟩ := q
          rw [hgo] at h
          dsimp only at h
          injection h with h1 h2
          obtain ⟨hchpos, hchbal⟩ := create_charge_history_ok hch
          have hinvc : InvDB dbc := by
            unfold InvDB
            rw [hchbal]
            exact hinv
          obtain ⟨hi3, hib⟩ := get_or_create_inv hgo hinvc
          subst h2
          exact InvList_updateWhere hi3 (hib.add (le_of_lt hchpos) true)
  · -- manual-match credit
    intro now mr amt db2 h
    unfold match_deposit_manually at h
    cases hu : db.unmatched.find? (fun u => u.unmatched_deposit_id == mr.unmatched_deposit_id) with
    | none => rw [hu] at h; exact absurd h (by simp)
    | some unmatched_deposit =>
      rw [hu] at h
      dsimp only at h
      split_ifs at h with h1 h2
      · exact absurd h (by simp)
      · exact absurd h (by simp)
      · cases hch : create_charge_history db
            { user_id := mr.user_id, deposit_request_id := none,
              amount := mr.confirmed_amount } with
        | error e => rw [hch] at h; exact absurd h (by simp)
        | ok p =>
          obtain ⟨ch, dbc⟩ := p
          rw [hch] at h
          dsimp only at h
          cases hgo : get_or_create_user_balance dbc mr.user_id with
          | error e => rw [hgo] at h; exact absurd h (by simp)
          | ok q =>
            obtain ⟨ub, db3⟩ := q
            rw [hgo] at h
            dsimp only at h
            injection h with h3 h4
            obtain ⟨hchpos, hchbal⟩ := create_charge_history_ok hch
            have hinvc : InvDB dbc := by
              unfold InvDB
              rw [hchbal]
              exact hinv
            obtain ⟨hi3, hib⟩ := get_or_create_inv hgo hinvc
            subst h4
            exact InvList_updateWhere hi3 (hib.add (le_of_lt hchpos) true)
  · -- refund approval
    intro now rr memo rr2 db2 h
    unfold approve_refund_new at h
    split_ifs at h with h1
    cases hg : get_user_balance db rr.user_id with
    | none => rw [hg] at h; exact absurd h (by simp)
    | some user_balance =>
      rw [hg] at h
      dsimp only at h
      split_ifs at h with h2
      injection h with h
      injection h with h3 h4
      have hb := hinv _ (get_user_balance_mem hg)
      have hb2 : BalInv
          { user_balance with
            refundable_balance :=
              user_balance.refundable_balance - rr.refund_amount
            total_balance :=
              user_balance.total_balance - rr.refund_amount } := by
        obtain ⟨i1, i2, i3, i4⟩ := hb
        unfold BalInv
        dsimp only
        omega
      subst h4
      exact InvList_updateWhere hinv hb2

/-- Witness for c1_ledger_invariant: the concrete store dbW satisfies the
invariant, and a 7-unit refundable credit to u1 preserves it. -/
theorem c1_ledger_invariant_witness :
    InvDB dbW ∧
    ∀ b2 db2,
      update_user_balance dbW "u1" 7 true true = .ok (b2, db2) → InvDB db2 :=
  ⟨by decide, fun b2 db2 h =>
    (c1_ledger_invariant dbW (by decide)).1 "u1" 7 true b2 db2 (by decide) h⟩

/-! ### C5: refund approval succeeds only once -/

/-- C5: approval succeeds only on a pending request — on any other status it
raises AlreadyProcessed before touching anything, so the ledger is unchanged
and a second approve call cannot debit twice; on success it re-validates
refundable_balance ≥ amount and debits exactly the requested amount from the
refundable pool and the total, never from the non-refundable pool. -/
theorem c5_refund_approval (db : DB) (now : Int) (rr : RefundRequest)
    (memo : Option String) :
    (rr.status ≠ "pending" →
      approve_refund_new db now rr memo = .error "request already processed") ∧
    (∀ b, rr.status = "pending" →
      get_user_balance db rr.user_id = some b →
      b.refundable_balance < rr.refund_amount →
      approve_refund_new db now rr memo =
        .error "refundable balance is insufficient") ∧
    (∀ b, rr.status = "pending" →
      get_user_balance db rr.user_id = some b →
      rr.refund_amount ≤ b.refundable_balance →
      ∃ rr2 db2,
        approve_refund_new db now rr memo = .ok (rr2, db2) ∧
        rr2.status = "approved" ∧
        get_user_balance db2 rr.user_id = some
          { b with
            refundable_balance := b.refundable_balance - rr.refund_amount
            total_balance := b.total_balance - rr.refund_amount } ∧
        (∀ now2 memo2, approve_refund_new db2 now2 rr2 memo2 =
          .error "request already processed")) := by
  refine ⟨?_, ?_, ?_⟩
  · intro h1
    have hne : (rr.status != "pending") = true := by
      simpa [bne_iff_ne] using h1
    unfold approve_refund_new
    rw [hne]
    simp
  · intro b h1 hb hlt
    have hne : (rr.status != "pending") = false := by
      simp [h1]
    unfold approve_refund_new
    rw [hne]
    simp only [Bool.false_eq_true, if_false]
    rw [hb]
    dsimp only
    rw [if_pos hlt]
  · intro b h1 hb hle
    have hne : (rr.status != "pending") = false := by
      simp [h1]
    have hb2 : db.balances.find? (fun x => x.user_id == rr.user_id) = some b := by
      simpa [get_user_balance] using hb
    have hbu : (b.user_id == rr.user_id) = true := by
      simpa using List.find?_some hb2
    unfold approve_refund_new
    rw [hne]
    simp only [Bool.false_eq_true, if_false]
    rw [hb]
    dsimp only
    rw [if_neg (not_lt.mpr hle)]
    refine ⟨_, _, rfl, rfl, ?_, ?_⟩
    · have hfound : (db.balances.find? (fun x => x.user_id == rr.user_id)).isSome := by
        simp [hb2]
      have hp : (fun x => x.user_id == rr.user_id)
          ({ b with
             refundable_balance := b.refundable_balance - rr.refund_amount
             total_balance := b.total_balance - rr.refund_amount } : UserBalance) = true := by
        simpa using hbu
      simpa [get_user_balance, setBalance] using
        updateWhere_find? (fun x => x.user_id == rr.user_id) _ hp db.balances hfound
    · intro now2 memo2
      rfl

/-- Witness for c5_refund_approval: approving the pending 4000-unit request of
u1 against a 5000-unit refundable balance succeeds, drops the refundable pool
and total to 1000, and a second approve call fails as already processed. -/
theorem c5_refund_approval_witness :
    rrB.status = "pending" ∧
    get_user_balance dbB rrB.user_id = some ⟨"u1", 5000, 5000, 0⟩ ∧
    (4000:Int) ≤ 5000 ∧
    ∃ rr2 db2,
      approve_refund_new dbB 7 rrB none = .ok (rr2, db2) ∧
      rr2.status = "approved" ∧
      get_user_balance db2 rrB.user_id = some
        { (⟨"u1", 5000, 5000, 0⟩ : UserBalance) with
          refundable_balance := 5000 - rrB.refund_amount
          total_balance := 5000 - rrB.refund_amount } ∧
      (∀ now2 memo2, approve_refund_new db2 now2 rr2 memo2 =
        .error "request already processed") :=
  ⟨rfl, rfl, by decide,
    (c5_refund_approval dbB 7 rrB none).2.2 ⟨"u1", 5000, 5000, 0⟩ rfl rfl (by decide)⟩

/-! ### C6: refund request creation checks, ledger untouched -/

theorem refundable_info_of_pending {db : DB} {user_id : String}
    (h : has_pending_refund_request db user_id = true) :
    (get_user_refundable_amount db user_id).2 = false := by
  unfold get_user_refundable_amount
  cases hg : get_user_balance db user_id <;> simp [h]

/-- C6: creating a refund request fails when the user already has a pending
refund request, when the amount exceeds the current refundable balance (0 for
a user with no balance row), or when the amount is below the 1000-unit
minimum; and in every case, success included, it leaves the balance rows of
the ledger exactly as they were. -/
theorem c6_create_refund_request (db : DB) (user_id : String)
    (data : RefundRequestCreateData) :
    (has_pending_refund_request db user_id = true →
      create_refund_request db user_id data =
        .error "a refund request is already being processed") ∧
    (data.refund_amount > (get_user_refundable_amount db user_id).1 →
      ∃ e, create_refund_request db user_id data = .error e) ∧
    (data.refund_amount < 1000 →
      ∃ e, create_refund_request db user_id data = .error e) ∧
    (∀ rr db2, create_refund_request db user_id data = .ok (rr, db2) →
      db2.balances = db.balances) := by
  refine ⟨?_, ?_, ?_, ?_⟩
  · intro hp
    unfold create_refund_request
    dsimp only
    rw [refundable_info_of_pending hp]
    simp
  · intro hgt
    unfold create_refund_request
    dsimp only
    by_cases hcan : (get_user_refundable_amount db user_id).2 = true
    · simp only [hcan, Bool.not_true, Bool.false_eq_true, if_false]
      rw [if_pos hgt]
      exact ⟨_, rfl⟩
    · have hf : (get_user_refundable_amount db user_id).2 = false := by
        simpa using hcan
      simp only [hf, Bool.not_false, if_true]
      exact ⟨_, rfl⟩
  · intro hlt
    unfold create_refund_request
    dsimp only
    by_cases hcan : (get_user_refundable_amount db user_id).2 = true
    · simp only [hcan, Bool.not_true, Bool.false_eq_true, if_false]
      by_cases hgt : data.refund_amount > (get_user_refundable_amount db user_id).1
      · rw [if_pos hgt]
        exact ⟨_, rfl⟩
      · rw [if_neg hgt, if_pos hlt]
        exact ⟨_, rfl⟩
    · have hf : (get_user_refundable_amount db user_id).2 = false := by
        simpa using hcan
      simp only [hf, Bool.not_false, if_true]
      exact ⟨_, rfl⟩
  · intro rr db2 h
    unfold create_refund_request at h
    dsimp only at h
    split_ifs at h
    injection h with h
    injection h with h1 h2
    subst h2
    rfl

/-- Witness for c6_create_refund_request: a 999-unit request is below the
minimum and is rejected, and the successful 4000-unit request against a
5000-unit refundable balance leaves the balance rows untouched. -/
theorem c6_create_refund_request_witness :
    ((999:Int) < 1000 ∧ ∃ e, create_refund_request dbB "u1" rd999 = .error e) ∧
    ∀ rr db2, create_refund_request dbB "u1" rdB = .ok (rr, db2) →
      db2.balances = dbB.balances :=
  ⟨⟨by decide, (c6_create_refund_request dbB "u1" rd999).2.2.1 (by decide)⟩,
    fun rr db2 h => (c6_create_refund_request dbB "u1" rdB).2.2.2 rr db2 h⟩

/-! ### C7: the sliding-window rate limiter -/

theorem rate_config_pos {action : String} {cfg : RateConfig}
    (h : RATE_LIMIT_CONFIGS action = some cfg) : 0 < cfg.max_attempts := by
  unfold RATE_LIMIT_CONFIGS at h
  split_ifs at h <;> (injection h with h; subst h; decide)

/-- C7: check counts the window entries of (user, action kind) created at or
after now - period and allows iff that count is strictly below the limit; on
denial the reported reset time is the creation time of the oldest in-window
entry plus the window length.  The ledger-deduct policy is 10 per minute, so
an 11th deduct attempt inside one minute (count 10) is denied. -/
theorem c7_rate_limiter (db : DB) (now : Int) (user_id : String)
    (action_type : String) (cfg : RateConfig)
    (hcfg : RATE_LIMIT_CONFIGS action_type = some cfg) :
    ∃ res, check_rate_limit db now user_id action_type = .ok res ∧
      res.current_count =
        (rateWindow db now user_id action_type cfg.period_minutes).length ∧
      res.limit_per_period = cfg.max_attempts ∧
      (res.allowed = true ↔
        (rateWindow db now user_id action_type cfg.period_minutes).length <
          cfg.max_attempts) ∧
      (res.allowed = false → ∃ oldest,
        ((rateWindow db now user_id action_type cfg.period_minutes).map
          (fun l => l.created_at)).min? = some oldest ∧
        res.reset_time = some (oldest + cfg.period_minutes)) ∧
      RATE_LIMIT_CONFIGS "balance_deduct" = some ⟨10, 1⟩ := by
  unfold check_rate_limit
  rw [hcfg]
  dsimp only
  refine ⟨_, rfl, rfl, rfl, ?_, ?_, rfl⟩
  · simp
  · intro hf
    have hcnt : ¬ ((rateWindow db now user_id action_type cfg.period_minutes).length <
        cfg.max_attempts) := by
      simpa using hf
    cases hmin : ((rateWindow db now user_id action_type cfg.period_minutes).map
        (fun l => l.created_at)).min? with
    | none =>
      have hnil := List.min?_eq_none_iff.mp hmin
      have := List.map_eq_nil_iff.mp hnil
      have hlen : (rateWindow db now user_id action_type cfg.period_minutes).length = 0 := by
        rw [this]; rfl
      have := rate_config_pos hcfg
      omega
    | some oldest =>
      refine ⟨oldest, rfl, ?_⟩
      have hdec : decide ((rateWindow db now user_id action_type
          cfg.period_minutes).length < cfg.max_attempts) = false := by
        simpa using hcnt
      simp [hdec, hmin]

/-- Witness for c7_rate_limiter: user u1 has 10 balance-deduct entries created
at time 10; at time 10 the 11th attempt is checked against the 10-per-minute
policy. -/
theorem c7_rate_limiter_witness :
    ∃ res, check_rate_limit dbR 10 "u1" "balance_deduct" = .ok res ∧
      res.current_count = (rateWindow dbR 10 "u1" "balance_deduct" (1:Int)).length ∧
      res.limit_per_period = (10:Nat) ∧
      (res.allowed = true ↔
        (rateWindow dbR 10 "u1" "balance_deduct" (1:Int)).length < (10:Nat)) ∧
      (res.allowed = false → ∃ oldest,
        ((rateWindow dbR 10 "u1" "balance_deduct" (1:Int)).map
          (fun l => l.created_at)).min? = some oldest ∧
        res.reset_time = some (oldest + (1:Int))) ∧
      RATE_LIMIT_CONFIGS "balance_deduct" = some ⟨10, 1⟩ :=
  c7_rate_limiter dbR 10 "u1" "balance_deduct" ⟨10, 1⟩ rfl

/-! ### C10: the duplicate check applies only to fully-parsed records -/

theorem smsDupGate_ok_of_missing {db : DB} {d : SmsLogCreateData}
    (h : d.parsed_amount = none ∨ d.parsed_name = none ∨ d.parsed_time = none) :
    smsDupGate db d = .ok () := by
  unfold smsDupGate
  cases ha : d.parsed_amount with
  | none => rfl
  | some a =>
    cases hn : d.parsed_name with
    | none => rfl
    | some n =>
      cases ht : d.parsed_time with
      | none => rfl
      | some t =>
        exfalso
        rcases h with h | h | h <;> simp [ha, hn, ht] at h

/-- C10: whenever one of parsed amount, parsed name, parsed time is missing —
in particular for every parse-failed record — the ingestion duplicate check is
skipped and a fresh row is always appended; consequently ingesting the same
unparseable raw text twice stores two distinct failed SmsTransaction rows. -/
theorem c10_dup_check_skipped (db : DB) (d : SmsLogCreateData)
    (h : d.parsed_amount = none ∨ d.parsed_name = none ∨ d.parsed_time = none) :
    (∃ row, create_sms_log db d =
      .ok (row, { db with smsLogs := db.smsLogs ++ [row], nextId := db.nextId + 1 })) ∧
    (∀ (pc : SmsParseCore) (now1 now2 : Int) (raw : String),
      pc.amount raw = none → pyStrip raw ≠ "" → raw.length ≤ 1000 →
      ∃ r1 r2,
        (process_sms_message pc (process_sms_message pc db now1 raw).2 now2 raw).2.smsLogs
          = db.smsLogs ++ [r1, r2] ∧
        r1.processing_status = "failed" ∧ r2.processing_status = "failed" ∧
        r1.sms_log_id ≠ r2.sms_log_id) := by
  constructor
  · unfold create_sms_log
    rw [smsDupGate_ok_of_missing h]
    exact ⟨_, rfl⟩
  · intro pc now1 now2 raw hpc htrim hlen
    have hval : validate_sms_log_create
        { raw_message := raw, processing_status := "failed",
          error_message := some "SMS parse failed" } =
        .ok { raw_message := pyStrip raw, parsed_amount := none, parsed_name := none,
              parsed_time := none, processing_status := "failed",
              error_message := some "SMS parse failed" } := by
      unfold validate_sms_log_create
      rw [if_neg htrim, if_neg (by omega : ¬ raw.length > 1000)]
      rfl
    have hstep : ∀ (dbx : DB) (nowx : Int), process_sms_message pc dbx nowx raw =
        (.parseFailed dbx.nextId,
         { dbx with
           smsLogs := dbx.smsLogs ++
             [{ sms_log_id := dbx.nextId, raw_message := pyStrip raw,
                parsed_amount := none, parsed_name := none, parsed_time := none,
                processing_status := "failed", matched_deposit_id := none,
                error_message := some "SMS parse failed" }]
           nextId := dbx.nextId + 1 }) := by
      intro dbx nowx
      unfold process_sms_message parse_bank_sms
      dsimp only
      rw [hpc]
      unfold process_sms_parse_failure
      rw [hval]
      dsimp only
      unfold create_sms_log
      rw [smsDupGate_ok_of_missing (Or.inl rfl)]
    rw [hstep db now1]
    dsimp only
    rw [hstep _ now2]
    dsimp only
    refine ⟨{ sms_log_id := db.nextId, raw_message := pyStrip raw,
              parsed_amount := none, parsed_name := none, parsed_time := none,
              processing_status := "failed", matched_deposit_id := none,
              error_message := some "SMS parse failed" },
            { sms_log_id := db.nextId + 1, raw_message := pyStrip raw,
              parsed_amount := none, parsed_name := none, parsed_time := none,
              processing_status := "failed", matched_deposit_id := none,
              error_message := some "SMS parse failed" }, ?_, rfl, rfl,
            by dsimp only; omega⟩
    simp

/-- Witness for c10_dup_check_skipped: a record with no parsed fields is
stored unconditionally, and ingesting the unparseable text "hello" twice
through the nothing-recognising parse core stores two distinct failed rows. -/
theorem c10_dup_check_skipped_witness :
    (∃ row, create_sms_log emptyDB smsFailData =
      .ok (row, { emptyDB with
                  smsLogs := emptyDB.smsLogs ++ [row]
                  nextId := emptyDB.nextId + 1 })) ∧
    ∃ r1 r2,
      (process_sms_message pcNone
        (process_sms_message pcNone emptyDB 0 "hello").2 1 "hello").2.smsLogs
        = emptyDB.smsLogs ++ [r1, r2] ∧
      r1.processing_status = "failed" ∧ r2.processing_status = "failed" ∧
      r1.sms_log_id ≠ r2.sms_log_id :=
  ⟨(c10_dup_check_skipped emptyDB smsFailData (Or.inl rfl)).1,
    (c10_dup_check_skipped emptyDB smsFailData (Or.inl rfl)).2 pcNone 0 1 "hello"
      rfl (by decide) (by decide)⟩

/-! ### C3: re-ingesting the same raw text through the routed ingestion
endpoint is deduplicated.  The live path (POST /api/v1/sms/parse →
process_sms_end_to_end → parse_bank_sms_format) reads the transaction time
from the message text, so a re-delivered message carries the identical
(amount, name, time) triple and is rejected before any row is written. -/

theorem scalarOneOrNone_eq_some_none {α : Type} {l : List α} :
    scalarOneOrNone l = some none ↔ l = [] := by
  cases l with
  | nil => simp [scalarOneOrNone]
  | cons x xs => cases xs <;> simp [scalarOneOrNone]

theorem filter_length_mapWhere {α : Type} (q p : α → Bool) (f : α → α)
    (hqf : ∀ x, q (f x) = q x) :
    ∀ l : List α, ((mapWhere p f l).filter q).length = (l.filter q).length := by
  intro l
  induction l with
  | nil => rfl
  | cons x xs ih =>
    simp only [mapWhere, List.map_cons] at ih ⊢
    by_cases hp : p x = true
    · rw [if_pos hp, List.filter_cons, List.filter_cons, hqf x]
      cases hq : q x <;> simp [ih]
    · rw [if_neg hp, List.filter_cons, List.filter_cons]
      cases hq : q x <;> simp [ih]

theorem update_sms_log_status_tripleCount (db : DB) (i : Nat) (s : String)
    (e : Option String) (a : Int) (n : String) (t : Int) :
    tripleCount (update_sms_log_status db i s e) a n t = tripleCount db a n t := by
  unfold tripleCount update_sms_log_status
  dsimp only
  refine filter_length_mapWhere _ _ _ ?_ db.smsLogs
  intro x
  rfl

theorem create_charge_history_smsLogs {db : DB} {c : ChargeHistoryCreate}
    {ch : ChargeHistory} {db2 : DB}
    (h : create_charge_history db c = .ok (ch, db2)) : db2.smsLogs = db.smsLogs := by
  unfold create_charge_history at h
  split_ifs at h
  injection h with h
  injection h with h1 h2
  subst h2
  rfl

theorem get_or_create_smsLogs {db : DB} {user_id : String} {b : UserBalance}
    {db2 : DB} (h : get_or_create_user_balance db user_id = .ok (b, db2)) :
    db2.smsLogs = db.smsLogs := by
  unfold get_or_create_user_balance at h
  cases hg : get_user_balance db user_id with
  | some bb =>
    rw [hg] at h
    injection h with h
    injection h with h1 h2
    subst h2
    rfl
  | none =>
    rw [hg] at h
    dsimp only at h
    split_ifs at h
    injection h with h
    injection h with h1 h2
    subst h2
    rfl

theorem update_user_balance_smsLogs {db : DB} {user_id : String} {amount : Int}
    {ia ir : Bool} {b : UserBalance} {db2 : DB}
    (h : update_user_balance db user_id amount ia ir = .ok (b, db2)) :
    db2.smsLogs = db.smsLogs := by
  unfold update_user_balance at h
  cases hg : get_or_create_user_balance db user_id with
  | error e => rw [hg] at h; exact absurd h (by simp)
  | ok p =>
    obtain ⟨bb, dbb⟩ := p
    rw [hg] at h
    dsimp only at h
    have hbb := get_or_create_smsLogs hg
    split_ifs at h
    · injection h with h
      injection h with h1 h2
      subst h2
      exact hbb
    · cases hd : bb.deduct_balance amount with
      | none => rw [hd] at h; exact absurd h (by simp)
      | some b2 =>
        rw [hd] at h
        dsimp only at h
        injection h with h
        injection h with h1 h2
        subst h2
        exact hbb

theorem process_payment_smsLogs (db : DB) (now : Int) (user_id : String)
    (deposit_request_id : Nat) (confirmed_amount : Option Int) :
    (SmsController.process_payment db now user_id deposit_request_id
      confirmed_amount).2.smsLogs = db.smsLogs := by
  unfold SmsController.process_payment
  cases get_deposit_request db deposit_request_id with
  | none => rfl
  | some deposit_request =>
    dsimp only
    split_ifs with h1 h2
    · rfl
    · rfl
    · cases confirmed_amount with
      | none => rfl
      | some amt =>
        dsimp only
        cases hch : create_charge_history
            (mark_deposit_completed db now deposit_request_id)
            { user_id := user_id, deposit_request_id := some deposit_request_id,
              amount := amt } with
        | error e => rfl
        | ok p =>
          obtain ⟨ch, db2⟩ := p
          dsimp only
          cases hgo : get_or_create_user_balance db2 user_id with
          | error e =>
            dsimp only
            rw [create_charge_history_smsLogs hch]
            rfl
          | ok q =>
            obtain ⟨ub, db3⟩ := q
            dsimp only
            cases hub : update_user_balance db3 user_id amt true true with
            | error e =>
              dsimp only
              rw [get_or_create_smsLogs hgo, create_charge_history_smsLogs hch]
              rfl
            | ok r =>
              obtain ⟨ub2, db4⟩ := r
              dsimp only [create_balance_change_log]
              rw [update_user_balance_smsLogs hub, get_or_create_smsLogs hgo,
                create_charge_history_smsLogs hch]
              rfl

theorem tripleCount_congr {db1 db2 : DB} (h : db1.smsLogs = db2.smsLogs)
    (a : Int) (n : String) (t : Int) :
    tripleCount db1 a n t = tripleCount db2 a n t := by
  unfold tripleCount
  rw [h]

theorem process_matched_tripleCount (db : DB) (now : Int) (sms_log_id : Nat)
    (deposit_request_id : Nat) (a : Int) (n : String) (t : Int) :
    tripleCount (SmsController.process_matched_deposit db now sms_log_id
      deposit_request_id).2 a n t = tripleCount db a n t := by
  unfold SmsController.process_matched_deposit
  cases get_most_recent_sms_log db with
  | none => rfl
  | some sms_log =>
    dsimp only
    split_ifs with h1
    · rfl
    · cases get_deposit_request db deposit_request_id with
      | none => rfl
      | some deposit_request =>
        dsimp only
        rcases hpp : SmsController.process_payment db now deposit_request.user_id
          deposit_request_id sms_log.parsed_amount with ⟨res, db1⟩
        have hsl : db1.smsLogs = db.smsLogs := by
          have := process_payment_smsLogs db now deposit_request.user_id
            deposit_request_id sms_log.parsed_amount
          rw [hpp] at this
          exact this
        cases res with
        | ok amt =>
          dsimp only
          rw [update_sms_log_status_tripleCount]
          exact tripleCount_congr hsl a n t
        | error e =>
          dsimp only
          rw [update_sms_log_status_tripleCount]
          exact tripleCount_congr hsl a n t

theorem handle_unmatched_tripleCount (db : DB) (sms_log_id : Nat)
    (a : Int) (n : String) (t : Int) :
    tripleCount (SmsController.handle_unmatched_deposit db sms_log_id).2 a n t =
      tripleCount db a n t := by
  unfold SmsController.handle_unmatched_deposit
  cases get_most_recent_sms_log db with
  | none => rfl
  | some sms_log =>
    dsimp only
    split_ifs with h1
    · rfl
    · dsimp only [create_unmatched_deposit]
      rw [update_sms_log_status_tripleCount]
      rfl

theorem parse_sms_message_stores (fc : SmsFormatCore) (db : DB) (year : Int)
    (raw : String) (a : Int) (n : String) (t : Int)
    (hparse : parse_bank_sms_format fc year raw = some (a, n, t))
    (hfresh : check_duplicate_sms db a n t = some none)
    (hstrip : pyStrip n = n) (hpos : 0 < a) (hne : n ≠ "")
    (hlen : n.length ≤ 50) (hraw1 : pyStrip raw ≠ "") (hraw2 : raw.length ≤ 1000) :
    ∃ db1,
      SmsController.parse_sms_message fc db year raw = (.stored db.nextId a n t, db1) ∧
      tripleCount db1 a n t = tripleCount db a n t + 1 := by
  have hnlen : n.length ≠ 0 := by
    intro h0
    apply hne
    cases n with
    | mk data =>
      have hdata : data = [] := List.length_eq_zero.mp h0
      simp [hdata]
  have hbne_a : (a != 0) = true := by simp [bne_iff_ne]; omega
  have hbne_n : (n != "") = true := by simpa [bne_iff_ne] using hne
  have hva : validateParsedAmount (some a) = .ok (some a) := by
    unfold validateParsedAmount
    dsimp only
    rw [if_neg (by omega : ¬ a ≤ 0)]
  have hvn : validateParsedName (some n) = .ok (some n) := by
    unfold validateParsedName
    dsimp only
    rw [hstrip, if_neg hnlen, if_neg (by omega : ¬ n.length > 50)]
  refine ⟨storedSmsDB db raw a n t, ?_, ?_⟩
  · unfold SmsController.parse_sms_message
    rw [hparse]
    dsimp only
    rw [hfresh]
    dsimp only
    unfold validate_sms_log_create
    dsimp only
    rw [if_neg hraw1, if_neg (by omega : ¬ raw.length > 1000), hva]
    dsimp only
    rw [hvn]
    dsimp only
    unfold create_sms_log smsDupGate
    dsimp only
    rw [hbne_a, hbne_n]
    simp only [Bool.and_self, if_true]
    rw [hfresh]
    rfl
  · unfold tripleCount storedSmsDB storedSmsRow
    dsimp only
    rw [List.filter_append]
    simp

theorem check_duplicate_of_count_one (db : DB) (a : Int) (n : String) (t : Int)
    (hone : tripleCount db a n t = 1) :
    ∃ x, check_duplicate_sms db a n t = some (some x) := by
  unfold tripleCount at hone
  obtain ⟨x, hx⟩ := List.length_eq_one.mp hone
  refine ⟨x, ?_⟩
  unfold check_duplicate_sms
  rw [hx]
  rfl

theorem e2e_rejects_duplicate (fc : SmsFormatCore) (db : DB) (now year : Int)
    (raw : String) (a : Int) (n : String) (t : Int)
    (hparse : parse_bank_sms_format fc year raw = some (a, n, t))
    (hdup : ∃ x, check_duplicate_sms db a n t = some (some x)) :
    SmsController.process_sms_end_to_end fc db now year raw =
      (.stepOneFailed .duplicate, db) := by
  obtain ⟨x, hx⟩ := hdup
  unfold SmsController.process_sms_end_to_end SmsController.parse_sms_message
  rw [hparse]
  dsimp only
  rw [hx]

theorem e2e_tripleCount_after (fc : SmsFormatCore) (db : DB) (now year : Int)
    (raw : String) (a : Int) (n : String) (t : Int)
    (hparse : parse_bank_sms_format fc year raw = some (a, n, t))
    (hfresh : check_duplicate_sms db a n t = some none)
    (hstrip : pyStrip n = n) (hpos : 0 < a) (hne : n ≠ "")
    (hlen : n.length ≤ 50) (hraw1 : pyStrip raw ≠ "") (hraw2 : raw.length ≤ 1000) :
    tripleCount (SmsController.process_sms_end_to_end fc db now year raw).2 a n t = 1 := by
  have hzero : tripleCount db a n t = 0 := by
    unfold tripleCount
    unfold check_duplicate_sms at hfresh
    rw [scalarOneOrNone_eq_some_none.mp hfresh]
    rfl
  obtain ⟨db1, hp, hcount⟩ := parse_sms_message_stores fc db year raw a n t
    hparse hfresh hstrip hpos hne hlen hraw1 hraw2
  have hone : tripleCount db1 a n t = 1 := by omega
  unfold SmsController.process_sms_end_to_end
  rw [hp]
  dsimp only
  cases hfind : SmsController.match_deposit db1 a n with
  | none => exact hone
  | some o =>
    cases o with
    | some deposit_request =>
      dsimp only
      rw [process_matched_tripleCount]
      exact hone
    | none =>
      dsimp only
      rw [handle_unmatched_tripleCount]
      exact hone

/-- C3: on the routed ingestion path the transaction time is parsed from the
message text, so the same raw text always carries the same (amount, payer
name, time) triple for a fixed clock year.  A triple already stored makes the
ingestion return the duplicate rejection with the store untouched — no new
row, no balance change; and after a first ingestion of a fresh message
exactly one SmsTransaction row carries its triple, so re-delivering the same
raw text at any later moment is rejected as a duplicate and leaves the store
(rows and balances alike) exactly as it was: one stored row, at most one
credit.  (The name hypotheses record what the source parser guarantees: the
captured name is non-empty, at most 50 characters, and returned stripped.) -/
theorem c3_live_ingestion_idempotent (fc : SmsFormatCore) (db : DB)
    (now year : Int) (raw : String) (a : Int) (n : String) (t : Int)
    (hparse : parse_bank_sms_format fc year raw = some (a, n, t))
    (hstrip : pyStrip n = n) (hpos : 0 < a) (hne : n ≠ "")
    (hlen : n.length ≤ 50) (hraw1 : pyStrip raw ≠ "") (hraw2 : raw.length ≤ 1000) :
    ((∃ x, check_duplicate_sms db a n t = some (some x)) →
      SmsController.process_sms_end_to_end fc db now year raw =
        (.stepOneFailed .duplicate, db)) ∧
    (check_duplicate_sms db a n t = some none →
      ∀ now2 : Int,
        tripleCount (SmsController.process_sms_end_to_end fc db now year raw).2 a n t = 1 ∧
        SmsController.process_sms_end_to_end fc
            (SmsController.process_sms_end_to_end fc db now year raw).2 now2 year raw =
          (.stepOneFailed .duplicate,
            (SmsController.process_sms_end_to_end fc db now year raw).2)) := by
  constructor
  · intro hdup
    exact e2e_rejects_duplicate fc db now year raw a n t hparse hdup
  · intro hfresh now2
    have hone := e2e_tripleCount_after fc db now year raw a n t
      hparse hfresh hstrip hpos hne hlen hraw1 hraw2
    exact ⟨hone, e2e_rejects_duplicate fc _ now2 year raw a n t hparse
      (check_duplicate_of_count_one _ a n t hone)⟩

/-- Witness for c3_live_ingestion_idempotent: the 5000-unit message "msg" by
alice1234 ingested into a fresh store, then re-delivered: one stored row, and
the second ingestion rejected as a duplicate with the store unchanged. -/
theorem c3_live_ingestion_idempotent_witness :
    parse_bank_sms_format fcW 2024 "msg" =
      some (5000, "alice1234", transaction_time_of 2024 100) ∧
    pyStrip "alice1234" = "alice1234" ∧ (0:Int) < 5000 ∧
    check_duplicate_sms dbC3 5000 "alice1234" (transaction_time_of 2024 100) =
      some none ∧
    (tripleCount (SmsController.process_sms_end_to_end fcW dbC3 5 2024 "msg").2
        5000 "alice1234" (transaction_time_of 2024 100) = 1 ∧
      SmsController.process_sms_end_to_end fcW
          (SmsController.process_sms_end_to_end fcW dbC3 5 2024 "msg").2 99 2024 "msg" =
        (.stepOneFailed .duplicate,
          (SmsController.process_sms_end_to_end fcW dbC3 5 2024 "msg").2)) :=
  ⟨rfl, by decide, by decide, by decide,
    (c3_live_ingestion_idempotent fcW dbC3 5 2024 "msg" 5000 "alice1234"
        (transaction_time_of 2024 100) rfl (by decide) (by decide) (by decide)
        (by decide) (by decide) (by decide)).2 (by decide) 99⟩

/-! ### C9: a mid-sequence failure leaves partial state -/

/-- C9 (refuted on the code): every helper that process_matched_deposit calls
commits on its own, so when the run raises at the balance-lookup step — after
mark_deposit_completed and create_charge_history have each committed — the
rollback in the except branch discards only the uncommitted tail.  The store
keeps a completed deposit request and a ChargeHistory row while the user
balance was never credited and no balance-change audit row exists, and it
differs from the pre-call store: exactly the partial state the claim rules
out. -/
theorem c9_interrupted_match_leaves_partial_state :
    (process_matched_deposit_interrupted dbC9 5 smsC9 depC9).deposits =
      [⟨1, "u1", "alice1234", some 1, "KB", "123", "completed", 0, 60, some 5⟩] ∧
    (process_matched_deposit_interrupted dbC9 5 smsC9 depC9).charges =
      [⟨3, "u1", some 1, 5000, 0, true, "deposit", "available"⟩] ∧
    get_user_balance (process_matched_deposit_interrupted dbC9 5 smsC9 depC9) "u1" =
      some ⟨"u1", 0, 0, 0⟩ ∧
    (process_matched_deposit_interrupted dbC9 5 smsC9 depC9).changeLogs = [] ∧
    process_matched_deposit_interrupted dbC9 5 smsC9 depC9 ≠ dbC9 := by
  decide

/-! ### C4: the matching engine -/

/-- C4: the lookup returns only pending requests whose virtual name equals the
parsed payer name exactly and ignores its amount argument entirely (no amount
or time constraint); on a hit, process_matched_deposit marks the request
completed, appends a refundable ChargeHistory row for the actual transaction
amount, credits the ledger by that actual amount, and marks the SMS row
processed with matched_deposit_id set. -/
theorem c4_matching_engine (db : DB) (now : Int) (sms_log : SmsLog)
    (deposit_request : DepositRequest) (deposit_name : String) (amount actual : Int)
    (b : UserBalance)
    (hamt : sms_log.parsed_amount = some actual)
    (hpos : 0 < actual)
    (hb : get_user_balance db deposit_request.user_id = some b) :
    (∀ a1 a2 : Int, find_matching_deposit_request db deposit_name a1 =
      find_matching_deposit_request db deposit_name a2) ∧
    (find_matching_deposit_request db deposit_name amount =
        some (some deposit_request) →
      deposit_request.status = "pending" ∧
      deposit_request.deposit_name = deposit_name) ∧
    (∃ db2, process_matched_deposit db now sms_log deposit_request =
        (.ok actual, db2) ∧
      (∀ d ∈ db2.deposits,
        d.deposit_request_id = deposit_request.deposit_request_id →
        d.status = "completed" ∧ d.matched_at = some now) ∧
      (∃ ch, db2.charges = db.charges ++ [ch] ∧ ch.amount = actual ∧
        ch.is_refundable = true ∧ ch.user_id = deposit_request.user_id ∧
        ch.source_type = "deposit") ∧
      get_user_balance db2 deposit_request.user_id =
        some (b.add_balance actual true) ∧
      (∀ l ∈ db2.smsLogs, l.sms_log_id = sms_log.sms_log_id →
        l.processing_status = "processed" ∧
        l.matched_deposit_id = some deposit_request.deposit_request_id)) := by
  have hb2 : db.balances.find?
      (fun x => x.user_id == deposit_request.user_id) = some b := by
    simpa [get_user_balance] using hb
  have hbu : (b.user_id == deposit_request.user_id) = true := by
    simpa using List.find?_some hb2
  refine ⟨?_, ?_, ?_⟩
  · intro a1 a2
    rfl
  · intro h
    unfold find_matching_deposit_request at h
    cases hl : db.deposits.filter
        (fun d => d.deposit_name == deposit_name && d.status == "pending") with
    | nil => rw [hl] at h; simp [scalarOneOrNone] at h
    | cons x xs =>
      cases xs with
      | nil =>
        rw [hl] at h
        simp only [scalarOneOrNone, Option.some.injEq] at h
        have hmem : deposit_request ∈ db.deposits.filter
            (fun d => d.deposit_name == deposit_name && d.status == "pending") := by
          rw [hl, h]
          exact List.mem_singleton_self _
        have hp := (List.mem_filter.mp hmem).2
        simp only [Bool.and_eq_true, beq_iff_eq] at hp
        exact ⟨hp.2, hp.1⟩
      | cons y ys => rw [hl] at h; simp [scalarOneOrNone] at h
  · unfold process_matched_deposit
    rw [hamt]
    dsimp only
    unfold create_charge_history matchedChargeData
    dsimp only
    rw [if_neg (by omega : ¬ actual ≤ 0)]
    dsimp only
    unfold get_or_create_user_balance get_user_balance
    dsimp only [mark_deposit_completed]
    rw [hb2]
    dsimp only
    refine ⟨_, rfl, ?_, ?_, ?_, ?_⟩
    · intro d hd hid
      simp only [create_balance_change_log, setBalance] at hd
      exact mapWhere_pred
        (fun d => d.deposit_request_id == deposit_request.deposit_request_id)
        (fun d => { d with status := "completed", matched_at := some now })
        (fun d => d.status = "completed" ∧ d.matched_at = some now)
        (fun x hx => ⟨rfl, rfl⟩) db.deposits d hd (by simp [hid])
    · exact ⟨_, rfl, rfl, rfl, rfl, rfl⟩
    · have hp : (fun x => x.user_id == deposit_request.user_id)
          (b.add_balance actual true) = true := by
        simpa using hbu
      have hfound : (db.balances.find?
          (fun x => x.user_id == deposit_request.user_id)).isSome := by
        simp [hb2]
      simpa [get_user_balance, setBalance, create_balance_change_log] using
        updateWhere_find? (fun x => x.user_id == deposit_request.user_id)
          (b.add_balance actual true) hp db.balances hfound
    · intro l hl hid
      simp only [create_balance_change_log, setBalance] at hl
      exact mapWhere_pred
        (fun l => l.sms_log_id == sms_log.sms_log_id)
        (fun l => { l with
                    matched_deposit_id := some deposit_request.deposit_request_id
                    processing_status := "processed" })
        (fun l => l.processing_status = "processed" ∧
          l.matched_deposit_id = some deposit_request.deposit_request_id)
        (fun x hx => ⟨rfl, rfl⟩) _ l hl (by simp [hid])

/-- Witness for c4_matching_engine: the pending request alice1234 of user u1
is matched by a 5000-unit SMS from payer alice1234 and u1 is credited 5000. -/
theorem c4_matching_engine_witness :
    smsC9.parsed_amount = some 5000 ∧ (0:Int) < 5000 ∧
    get_user_balance dbC9 depC9.user_id = some ⟨"u1", 0, 0, 0⟩ ∧
    ((find_matching_deposit_request dbC9 "alice1234" 5000 = some (some depC9) →
      depC9.status = "pending" ∧ depC9.deposit_name = "alice1234") ∧
    ∃ db2, process_matched_deposit dbC9 5 smsC9 depC9 = (.ok 5000, db2) ∧
      (∀ d ∈ db2.deposits, d.deposit_request_id = depC9.deposit_request_id →
        d.status = "completed" ∧ d.matched_at = some 5) ∧
      (∃ ch, db2.charges = dbC9.charges ++ [ch] ∧ ch.amount = 5000 ∧
        ch.is_refundable = true ∧ ch.user_id = depC9.user_id ∧
        ch.source_type = "deposit") ∧
      get_user_balance db2 depC9.user_id =
        some ((⟨"u1", 0, 0, 0⟩ : UserBalance).add_balance 5000 true) ∧
      (∀ l ∈ db2.smsLogs, l.sms_log_id = smsC9.sms_log_id →
        l.processing_status = "processed" ∧
        l.matched_deposit_id = some depC9.deposit_request_id)) :=
  ⟨rfl, by decide, rfl,
    (c4_matching_engine dbC9 5 smsC9 depC9 "alice1234" 5000 5000
      ⟨"u1", 0, 0, 0⟩ rfl (by decide) rfl).2⟩

/-! ### C8: generate is idempotent while a pending request is active -/

theorem latestBy_eq_none {l : List DepositRequest} : latestBy l = none ↔ l = [] := by
  cases l with
  | nil => simp [latestBy]
  | cons d rest =>
    simp only [latestBy]
    cases latestBy rest with
    | none => dsimp only; simp
    | some r => dsimp only; split_ifs <;> simp

theorem latestBy_mem : ∀ (l : List DepositRequest) r, latestBy l = some r → r ∈ l := by
  intro l
  induction l with
  | nil => intro r h; simp [latestBy] at h
  | cons d rest ih =>
    intro r h
    unfold latestBy at h
    cases hr : latestBy rest with
    | none =>
      rw [hr] at h
      dsimp only at h
      injection h with h
      subst h
      exact List.mem_cons_self _ _
    | some r0 =>
      rw [hr] at h
      dsimp only at h
      by_cases hlt : d.created_at < r0.created_at
      · rw [if_pos hlt] at h
        injection h with h
        subst h
        exact List.mem_cons_of_mem _ (ih r0 hr)
      · rw [if_neg hlt] at h
        injection h with h
        subst h
        exact List.mem_cons_self _ _

theorem latestBy_le : ∀ (l : List DepositRequest) r, latestBy l = some r →
    ∀ x ∈ l, x.created_at ≤ r.created_at := by
  intro l
  induction l with
  | nil => intro r h; simp [latestBy] at h
  | cons d rest ih =>
    intro r h x hx
    unfold latestBy at h
    cases hr : latestBy rest with
    | none =>
      rw [hr] at h
      dsimp only at h
      injection h with h
      subst h
      have hnil := latestBy_eq_none.mp hr
      subst hnil
      rcases List.mem_cons.mp hx with hx | hx
      · subst hx; exact le_refl _
      · simp at hx
    | some r0 =>
      rw [hr] at h
      dsimp only at h
      by_cases hlt : d.created_at < r0.created_at
      · rw [if_pos hlt] at h
        injection h with h
        subst h
        rcases List.mem_cons.mp hx with hx | hx
        · subst hx; exact le_of_lt hlt
        · exact ih r0 hr x hx
      · rw [if_neg hlt] at h
        injection h with h
        subst h
        rcases List.mem_cons.mp hx with hx | hx
        · subst hx; exact le_refl _
        · exact le_trans (ih r0 hr x hx) (not_lt.mp hlt)

theorem latestBy_filter (q : DepositRequest → Bool) :
    ∀ (l : List DepositRequest) r, latestBy l = some r → q r = true →
      latestBy (l.filter q) = some r := by
  intro l
  induction l with
  | nil => intro r h _; simp [latestBy] at h
  | cons d rest ih =>
    intro r h hq
    unfold latestBy at h
    cases hr : latestBy rest with
    | none =>
      rw [hr] at h
      dsimp only at h
      injection h with h
      subst h
      have hnil := latestBy_eq_none.mp hr
      subst hnil
      simp [List.filter_cons, hq, latestBy]
    | some r0 =>
      rw [hr] at h
      dsimp only at h
      by_cases hlt : d.created_at < r0.created_at
      · rw [if_pos hlt] at h
        injection h with h
        subst h
        have hres := ih r0 hr hq
        by_cases hqd : q d = true
        · simp only [List.filter_cons, hqd, if_true, latestBy, hres]
          rw [if_pos hlt]
        · simp only [List.filter_cons, hqd, Bool.false_eq_true, if_false]
          exact hres
      · rw [if_neg hlt] at h
        injection h with h
        subst h
        simp only [List.filter_cons, hq, if_true, latestBy]
        cases hfr : latestBy (rest.filter q) with
        | none => rfl
        | some r1 =>
          have hr1 : r1 ∈ rest := List.mem_of_mem_filter (latestBy_mem _ _ hfr)
          have hle : r1.created_at ≤ r0.created_at := latestBy_le rest r0 hr r1 hr1
          dsimp only
          rw [if_neg (by omega : ¬ d.created_at < r1.created_at)]

theorem get_existing_active_stable (db : DB) (now now2 : Int) (user_id : String)
    (req : DepositRequest)
    (h : get_existing_active_request db now user_id = some req)
    (h12 : now ≤ now2) (h2 : now2 < req.expires_at) :
    get_existing_active_request db now2 user_id = some req := by
  unfold get_existing_active_request at h ⊢
  have hpt : ∀ d ∈ db.deposits, activeRequestPred now2 user_id d =
      (decide (now2 < d.expires_at) && activeRequestPred now user_id d) := by
    intro d _
    unfold activeRequestPred
    by_cases h2e : now2 < d.expires_at
    · have h1e : now < d.expires_at := lt_of_le_of_lt h12 h2e
      simp [h2e, h1e]
    · simp [h2e]
  rw [List.filter_congr hpt,
    ← List.filter_filter (activeRequestPred now user_id) db.deposits]
  exact latestBy_filter (fun d => decide (now2 < d.expires_at)) _ req h (by simp [h2])

/-- C8: when the user has a non-expired pending deposit request, generate
returns exactly that request — same id and virtual name — and leaves the
store unchanged, so no new request is created and no rate-limit state is
consulted or charged (the limiter branch is reached only when no active
request exists); a second generate call at any later time at which the
request is still unexpired returns the identical request again. -/
theorem c8_generate_idempotent (db : DB) (now : Int) (user_id : String)
    (dd : DepositRequestCreate) (randomDigits : Nat → String)
    (req : DepositRequest)
    (h : get_existing_active_request db now user_id = some req) :
    generate_deposit_name db now user_id dd randomDigits =
      (.success req.deposit_request_id req.deposit_name, db) ∧
    ∀ now2, now ≤ now2 → now2 < req.expires_at →
      generate_deposit_name db now2 user_id dd randomDigits =
        (.success req.deposit_request_id req.deposit_name, db) := by
  constructor
  · unfold generate_deposit_name
    rw [h]
  · intro now2 h12 h2
    unfold generate_deposit_name
    rw [get_existing_active_stable db now now2 user_id req h h12 h2]

/-- Witness for c8_generate_idempotent: with the pending request alice1234
(expiring at 60) active at time 5, generate returns it unchanged, and again
at time 30. -/
theorem c8_generate_idempotent_witness :
    get_existing_active_request dbC3 5 "u1" = some depC9 ∧
    (generate_deposit_name dbC3 5 "u1" {} (fun _ => "0000") =
      (.success depC9.deposit_request_id depC9.deposit_name, dbC3) ∧
    ∀ now2, (5:Int) ≤ now2 → now2 < depC9.expires_at →
      generate_deposit_name dbC3 now2 "u1" {} (fun _ => "0000") =
        (.success depC9.deposit_request_id depC9.deposit_name, dbC3)) :=
  ⟨by decide, c8_generate_idempotent dbC3 5 "u1" {} (fun _ => "0000") depC9 (by decide)⟩

end DaytoCourse
